import Mathlib

/-!
Verification of the confirm-before-act supervisor protocol.

This file embeds the two cooperating services of the repository:

* `apps/api/app/supervisor.py` — the supervisor orchestrator (language
  detection, intent parsing, plan/execute endpoints, supervisor-side
  confirm-token store), modelled in namespace `Supervisor`;
* `apps/mcp/app/main.py` — the MCP tool server (tool registry, tool
  executor, tool-server-side confirm-token store with a 300 s TTL, the
  `/run` endpoint), modelled in namespace `Mcp`.

Python values that flow through the protocol (JSON bodies, tool
parameters, results) are modelled by the inductive `PyVal`; Python dicts
with string keys are association lists with first-key-wins lookup,
assignment replacing an existing key in place, and deletion.  Wall-clock
time (`time.time()`) is a `Nat` passed explicitly; `uuid.uuid4()` results
are explicit `String` arguments.  Outbound HTTP requests made by the tool
executor are represented by an oracle function plus an explicit log of the
calls that were performed, so that "a downstream call happened" is
observable.  HTTP transport between the two services and the shared-secret
and admin-auth checks are assumed to succeed (they gate every request
uniformly and carry no protocol state).
-/

set_option maxRecDepth 10000
set_option maxHeartbeats 1000000

/-- Model of a Python runtime value as it appears in JSON bodies, tool
parameters and results: `None`, booleans, integers, strings, lists and
string-keyed dicts. -/
inductive PyVal where
  | none
  | bool (b : Bool)
  | int (n : Int)
  | str (s : String)
  | list (l : List PyVal)
  | dict (d : List (String × PyVal))

/-- A Python dict with string keys, as used for tool parameters. -/
abbrev Params := List (String × PyVal)

/-- Python `d.get(k)` / `d[k]` lookup on a string-keyed dict: the value of
the (unique) entry with key `k`, if present. -/
def dget {α : Type} (d : List (String × α)) (k : String) : Option α :=
  (d.find? (fun x => x.1 == k)).map (fun x => x.2)

/-- Python `d[k] = v` on a string-keyed dict: replace the entry in place if
the key is present, otherwise append a new entry (dicts preserve insertion
order). -/
def dset {α : Type} (d : List (String × α)) (k : String) (v : α) : List (String × α) :=
  if (d.find? (fun x => x.1 == k)).isSome then
    d.map (fun x => if x.1 == k then (k, v) else x)
  else d ++ [(k, v)]

/-- Python `del d[k]` on a string-keyed dict (keys are unique, so removing
every entry with key `k` removes exactly the one entry). -/
def ddel {α : Type} (d : List (String × α)) (k : String) : List (String × α) :=
  d.filter (fun x => x.1 != k)

/-- Python truthiness of a `PyVal` (`if x:`). -/
def PyVal.truthy : PyVal → Bool
  | .none => false
  | .bool b => b
  | .int n => n != 0
  | .str s => s != ""
  | .list l => !l.isEmpty
  | .dict d => !d.isEmpty

mutual

/-- Python `repr` of a value (dict/list reprs are what an f-string
interpolation of a dict produces). -/
def PyVal.pyRepr : PyVal → String
  | .none => "None"
  | .bool true => "True"
  | .bool false => "False"
  | .int n => toString n
  | .str s => "\x27" ++ s ++ "\x27"
  | .list l => "[" ++ String.intercalate ", " (pyReprList l) ++ "]"
  | .dict d => "\x7b" ++ String.intercalate ", " (pyReprDict d) ++ "\x7d"

/-- `repr` of the elements of a Python list. -/
def pyReprList : List PyVal → List String
  | [] => []
  | v :: vs => PyVal.pyRepr v :: pyReprList vs

/-- `repr` of the entries of a Python dict. -/
def pyReprDict : List (String × PyVal) → List String
  | [] => []
  | (k, v) :: vs => ("\x27" ++ k ++ "\x27: " ++ PyVal.pyRepr v) :: pyReprDict vs

end

/-- Python `str(x)`, as used by f-string interpolation. -/
def PyVal.pyStr : PyVal → String
  | .str s => s
  | v => v.pyRepr

/-- Python f-string interpolation of a dict of parameters
(`f"Parameters: {params}"`). -/
def paramsRepr (p : Params) : String := PyVal.pyRepr (PyVal.dict p)

/-- Python `params.get(k)`: `None` when the key is absent.  (Applied to a
non-dict the Python source would raise; in the modelled flows the argument
is always a dict.) -/
def pyGet (v : PyVal) (k : String) : PyVal :=
  match v with
  | .dict d =>
    match dget d k with
    | some x => x
    | Option.none => .none
  | _ => .none

/-- Python `params.get(k, default)`: the default applies only when the key
is absent. -/
def pgetD (p : Params) (k : String) (default : PyVal) : PyVal :=
  match dget p k with
  | some x => x
  | Option.none => default

/-- Truthiness of an `Optional[str]` field (`None` and `""` are falsy). -/
def optStrTruthy : Option String → Bool
  | Option.none => false
  | some s => s != ""

/-! ### Text utilities shared by the supervisor's regex-based helpers

All string manipulation is done on `List Char` with structural recursion so
that every definition evaluates inside the kernel.  ASCII case mapping
matches Python's for the ASCII inputs the protocol deals with. -/

/-- ASCII lowercase of one character (Python `str.lower`, ASCII range). -/
def lowerChar (c : Char) : Char :=
  if 'A' ≤ c && c ≤ 'Z' then Char.ofNat (c.toNat + 32) else c

/-- ASCII uppercase of one character (Python `str.upper`, ASCII range). -/
def upperChar (c : Char) : Char :=
  if 'a' ≤ c && c ≤ 'z' then Char.ofNat (c.toNat - 32) else c

/-- Python `s.lower()` (ASCII range). -/
def strLower (s : String) : String := String.mk (s.data.map lowerChar)

/-- Python `s.upper()` (ASCII range). -/
def strUpper (s : String) : String := String.mk (s.data.map upperChar)

/-- The characters Python's `str.strip()` and the regex class `\s` treat as
whitespace (ASCII range): space, tab, newline, carriage return, vertical
tab, form feed. -/
def isPySpace (c : Char) : Bool :=
  c = ' ' || c = '\t' || c = '\n' || c = '\r' || c = Char.ofNat 11 || c = Char.ofNat 12

/-- Python `s.strip()`: drop leading and trailing whitespace. -/
def pyStrip (s : String) : String :=
  String.mk (((s.data.dropWhile isPySpace).reverse.dropWhile isPySpace).reverse)

/-- One character of the trailing-punctuation class `[.!?]`. -/
def isTrailPunct (c : Char) : Bool :=
  c = '.' || c = '!' || c = '?'

/-- `re.sub(r"[.!?]+$", "", text)`: remove the maximal trailing run of
sentence punctuation. -/
def stripTrailingPunct (l : List Char) : List Char :=
  (l.reverse.dropWhile isTrailPunct).reverse

/-- Worker for `re.sub(r"\s+", " ", text)`: the flag records whether the
previous character was part of a whitespace run already emitted as a single
space. -/
def collapseWsGo : List Char → Bool → List Char
  | [], _ => []
  | c :: rest, inRun =>
    if isPySpace c then
      if inRun then collapseWsGo rest true
      else ' ' :: collapseWsGo rest true
    else c :: collapseWsGo rest false

/-- `re.sub(r"\s+", " ", text)`: collapse every whitespace run to a single
space. -/
def collapseWs (l : List Char) : List Char := collapseWsGo l false

/-- Python `pattern in text` substring test. -/
def strContains (hay pat : String) : Bool :=
  hay.data.tails.any (fun t => pat.data.isPrefixOf t)

/-- A hex digit as accepted by `[a-f0-9]` under `re.IGNORECASE`. -/
def isHexChar (c : Char) : Bool :=
  c.isDigit || ('a' ≤ c && c ≤ 'f') || ('A' ≤ c && c ≤ 'F')

/-- Match exactly `n` hex digits at the front of `l`, returning the matched
characters and the remainder. -/
def takeHex : Nat → List Char → Option (List Char × List Char)
  | 0, l => some ([], l)
  | _ + 1, [] => Option.none
  | n + 1, c :: rest =>
    if isHexChar c then
      match takeHex n rest with
      | some (m, r) => some (c :: m, r)
      | Option.none => Option.none
    else Option.none

/-- Match a literal `-` at the front of `l`. -/
def takeDash : List Char → Option (List Char)
  | c :: rest => if c = '-' then some rest else Option.none
  | [] => Option.none

/-- Match the fixed-shape UUID regex
`[a-f0-9]{8}-[a-f0-9]{4}-[a-f0-9]{4}-[a-f0-9]{4}-[a-f0-9]{12}`
(with `re.IGNORECASE`) at the start of `l`, returning the matched text. -/
def matchUuidAt (l : List Char) : Option String := do
  let (h1, r1) ← takeHex 8 l
  let r2 ← takeDash r1
  let (h2, r3) ← takeHex 4 r2
  let r4 ← takeDash r3
  let (h3, r5) ← takeHex 4 r4
  let r6 ← takeDash r5
  let (h4, r7) ← takeHex 4 r6
  let r8 ← takeDash r7
  let (h5, _) ← takeHex 12 r8
  pure (String.mk (h1 ++ "-".data ++ h2 ++ "-".data ++ h3 ++ "-".data ++ h4 ++ "-".data ++ h5))

/-- `re.search` of the UUID regex: leftmost match wins. -/
def searchUuid : List Char → Option String
  | [] => Option.none
  | c :: rest =>
    match matchUuidAt (c :: rest) with
    | some u => some u
    | Option.none => searchUuid rest

/-- A character of the class `[a-zA-Z0-9\-]`. -/
def isIdChar (c : Char) : Bool :=
  c.isAlphanum || c = '-'

/-- A character of the separator class `[:\s]`. -/
def isIdSep (c : Char) : Bool :=
  c = ':' || isPySpace c

/-- Match `id[:\s]*([a-zA-Z0-9\-]+)` at the start of `l` and return the
captured group.  The separator class and the identifier class are disjoint,
so the greedy `[:\s]*` never needs to backtrack. -/
def matchIdAt : List Char → Option String
  | 'i' :: 'd' :: rest =>
    let afterSep := rest.dropWhile isIdSep
    let idChars := afterSep.takeWhile isIdChar
    if idChars.isEmpty then Option.none else some (String.mk idChars)
  | _ => Option.none

/-- `re.search(r"id[:\s]*([a-zA-Z0-9\-]+)", text)`: leftmost match wins. -/
def searchIdPattern : List Char → Option String
  | [] => Option.none
  | c :: rest =>
    match matchIdAt (c :: rest) with
    | some i => some i
    | Option.none => searchIdPattern rest

/-- A quote character of the class `[\"\']`. -/
def isQuoteChar (c : Char) : Bool :=
  c = '"' || c = Char.ofNat 39

/-- Match `[\"\']([^\"\']+)[\"\']` at the start of `l` and return the
captured group: an opening quote, at least one non-quote character (greedy,
so exactly the run up to the next quote), and a closing quote. -/
def matchQuoteAt : List Char → Option String
  | [] => Option.none
  | c :: rest =>
    if isQuoteChar c then
      let content := rest.takeWhile (fun x => !isQuoteChar x)
      let after := rest.dropWhile (fun x => !isQuoteChar x)
      match content, after with
      | [], _ => Option.none
      | _, [] => Option.none
      | cont, _ :: _ => some (String.mk cont)
    else Option.none

/-- `re.search(r"[\"\']([^\"\']+)[\"\']", text)`: leftmost match wins. -/
def searchQuote : List Char → Option String
  | [] => Option.none
  | c :: rest =>
    match matchQuoteAt (c :: rest) with
    | some q => some q
    | Option.none => searchQuote rest

/-- Match `(?:job|posao)[:\s]+(.+)` at the start of `l` and return the
captured group.  At one start position at most one alternative can match
(they begin with different letters).  The input is always the output of
`normalize_text`, which contains no newline, so the greedy `(.+)` captures
the entire remainder; when the separator run reaches the end of the string
the regex engine backtracks and the final separator character is captured
by `(.+)` instead (possible only when the run has length at least two). -/
def matchJobTitleAt (l : List Char) : Option String :=
  let tryAfter : List Char → Option String := fun rest =>
    let seps := rest.takeWhile isIdSep
    let body := rest.dropWhile isIdSep
    if seps.isEmpty then Option.none
    else if !body.isEmpty then some (String.mk body)
    else if 2 ≤ seps.length then some (String.mk [seps.getLastD ' '])
    else Option.none
  if "job".data.isPrefixOf l then tryAfter (l.drop 3)
  else if "posao".data.isPrefixOf l then tryAfter (l.drop 5)
  else Option.none

/-- `re.search(r"(?:job|posao)[:\s]+(.+)", text_normalized)`: leftmost
match wins. -/
def searchJobTitle : List Char → Option String
  | [] => Option.none
  | c :: rest =>
    match matchJobTitleAt (c :: rest) with
    | some t => some t
    | Option.none => searchJobTitle rest

/-- Worker for Python `str.title()`: uppercase every letter that follows a
non-letter, lowercase every other letter; the flag records whether the
previous character was a letter. -/
def titleCaseGo : List Char → Bool → List Char
  | [], _ => []
  | c :: rest, prevAlpha =>
    (if c.isAlpha then (if prevAlpha then lowerChar c else upperChar c) else c)
      :: titleCaseGo rest c.isAlpha

/-- Python `s.title()` (ASCII range). -/
def pyTitle (s : String) : String := String.mk (titleCaseGo s.data false)

/-- Python `s.split(".")[-1]`: the part after the last dot (the whole
string when there is no dot). -/
def splitDot : List Char → List (List Char)
  | [] => [[]]
  | c :: rest =>
    let r := splitDot rest
    if c = '.' then [] :: r
    else
      match r with
      | [] => [[c]]
      | h :: t => (c :: h) :: t

/-- `tool.split(".")[-1]` as a string. -/
def lastDotPart (s : String) : String :=
  String.mk ((splitDot s.data).getLastD [])

/-- Python `template.format(action=x)` for the execute-instruction
templates, whose only replacement field is `\x7baction\x7d`. -/
def formatAction (template action : String) : String :=
  String.mk (formatActionGo action.data template.data)
where
  /-- Replace every occurrence of the eight-character field. -/
  formatActionGo (action : List Char) : List Char → List Char
    | c0 :: c1 :: c2 :: c3 :: c4 :: c5 :: c6 :: c7 :: rest =>
      if [c0, c1, c2, c3, c4, c5, c6, c7] = "\x7baction\x7d".data then
        action ++ formatActionGo action rest
      else
        c0 :: formatActionGo action (c1 :: c2 :: c3 :: c4 :: c5 :: c6 :: c7 :: rest)
    | c :: rest => c :: formatActionGo action rest
    | [] => []

/-! ### Supervisor: language detection and intent parsing
(`apps/api/app/supervisor.py`) -/

namespace Supervisor

/-- Language keyword table `LANG_PATTERNS` (enumeration order `de`, `bs`,
`en` is the tie-break order of Python's `max` over the dict). -/
def LANG_PATTERNS : List (String × List String) :=
  [("de",
    ["liste", "zeige", "zeig", "erstelle", "neu", "genehmige", "ablehnen",
     "bestätige", "hilfe", "was", "wie", "job", "jobs", "alle", "anzeigen",
     "welche", "gibt", "bitte", "danke", "details", "status", "aktualisiere"]),
   ("bs",
    ["prikaži", "napravi", "odobri", "odbij", "pomoc", "šta", "kako",
     "posao", "poslovi", "lista", "detalji", "kreiraj", "svi", "molim"]),
   ("en",
    ["list", "show", "create", "approve", "reject", "help", "what", "how",
     "job", "jobs", "all", "please", "details", "status", "update", "new"])]

/-- `normalize_text`: lowercase, strip, remove trailing sentence
punctuation, collapse whitespace runs to single spaces. -/
def normalize_text (text : String) : String :=
  let t := pyStrip (strLower text)
  let t := String.mk (stripTrailingPunct t.data)
  String.mk (collapseWs t.data)

/-- First-maximum selection: Python's `max(scores, key=scores.get)` keeps
the earliest entry among those with the maximal score. -/
def maxByFirst : List (String × Nat) → String × Nat
  | [] => ("de", 0)
  | x :: xs => xs.foldl (fun acc p => if p.2 > acc.2 then p else acc) x

/-- `detect_language`: score each language by the number of its keyword
phrases occurring as substrings of the normalized text; first maximum wins;
default to `"de"` when every score is zero. -/
def detect_language (text : String) : String :=
  let tn := normalize_text text
  let scores := LANG_PATTERNS.map
    (fun lp => (lp.1, (lp.2.filter (fun p => strContains tn p)).length))
  let best := maxByFirst scores
  if best.2 > 0 then best.1 else "de"

/-- Tool synonym table `TOOL_PATTERNS`; enumeration order is the
tie-break (first tool with any matching phrase wins). -/
def TOOL_PATTERNS : List (String × List String) :=
  [("jobs.list",
    ["liste jobs", "liste alle jobs", "zeige jobs", "zeig jobs",
     "jobs anzeigen", "welche jobs gibt es", "welche jobs",
     "alle jobs", "jobs liste", "zeige alle jobs",
     "list jobs", "show jobs", "show all jobs", "all jobs",
     "prikaži poslove", "lista poslova", "svi poslovi"]),
   ("jobs.get",
    ["job details", "zeige job", "job anzeigen", "details job",
     "show job", "job info", "get job",
     "detalji posla", "prikaži posao"]),
   ("jobs.create",
    ["erstelle job", "neuer job", "job erstellen", "neuen job",
     "create job", "new job", "add job",
     "kreiraj posao", "napravi posao", "novi posao"]),
   ("jobs.approve",
    ["genehmige job", "bestätige job", "job genehmigen", "approve job",
     "odobri posao"]),
   ("jobs.reject",
    ["ablehnen job", "job ablehnen", "verweigere job", "reject job",
     "odbij posao"]),
   ("jobs.update",
    ["aktualisiere job", "job aktualisieren", "update job", "edit job",
     "ažuriraj posao"])]

/-- Suggestion texts per language (`SUGGESTIONS`). -/
def SUGGESTIONS : List (String × List String) :=
  [("de", ["\"Liste alle Jobs\"", "\"Erstelle Job: <Titel>\"", "\"Genehmige Job <ID>\""]),
   ("bs", ["\"Prikaži poslove\"", "\"Kreiraj posao: <Naslov>\"", "\"Odobri posao <ID>\""]),
   ("en", ["\"List jobs\"", "\"Create job: <Title>\"", "\"Approve job <ID>\""])]

/-- `SUGGESTIONS.get(lang, SUGGESTIONS["de"])`. -/
def sugFor (lang : String) : List String :=
  match dget SUGGESTIONS lang with
  | some s => s
  | Option.none => (dget SUGGESTIONS "de").getD []

/-- Parameter extraction of `parse_intent`, by tool-specific rule.
`text` is the raw input, `tn` its `normalize_text` image. -/
def extract_params (tool text tn : String) : Params :=
  if tool = "jobs.get" then
    match searchUuid text.data with
    | some u => [("job_id", PyVal.str u)]
    | Option.none =>
      match searchIdPattern tn.data with
      | some i => [("job_id", PyVal.str i)]
      | Option.none => []
  else if tool = "jobs.create" then
    let title? :=
      match searchQuote text.data with
      | some q => some q
      | Option.none => searchJobTitle tn.data
    match title? with
    | some raw =>
      let title := pyStrip raw
      [("title", PyVal.str (if title.length > 0 then pyTitle title else "Neuer Job"))]
    | Option.none => [("title", PyVal.str "Neuer Job")]
  else if tool = "jobs.approve" || tool = "jobs.reject" || tool = "jobs.update" then
    match searchUuid text.data with
    | some u => [("job_id", PyVal.str u)]
    | Option.none => []
  else []

/-- `parse_intent`: the first tool in `TOOL_PATTERNS` one of whose trigger
phrases occurs in the normalized text wins; on a match the tool-specific
parameters are extracted and the suggestion list is empty; with no match
the tool is empty and the suggestions for the detected language are
returned. -/
def parse_intent (text : String) : String × Params × List String :=
  let tn := normalize_text text
  let lang := detect_language text
  match TOOL_PATTERNS.find? (fun tp => tp.2.any (fun p => strContains tn p)) with
  | some tp => (tp.1, extract_params tp.1 text tn, [])
  | Option.none => ("", [], sugFor lang)

/-- Response translation table `TRANSLATIONS`. -/
def TRANSLATIONS : List (String × List (String × String)) :=
  [("de",
    [("understood", "Verstanden"), ("plan", "Plan"), ("tools", "Tools"),
     ("confirm_question", "Soll ich fortfahren?"),
     ("execute_instruction", "Schreibe: EXECUTE {action}"),
     ("success", "Erfolgreich ausgeführt"), ("error", "Fehler"),
     ("unclear", "Ich habe nicht verstanden was du möchtest."),
     ("suggestions_prefix", "Versuche z.B.:"),
     ("type_read", "LESEN"), ("type_write", "SCHREIBEN")]),
   ("bs",
    [("understood", "Razumijem"), ("plan", "Plan"), ("tools", "Alati"),
     ("confirm_question", "Da li da nastavim?"),
     ("execute_instruction", "Napiši: EXECUTE {action}"),
     ("success", "Uspješno izvršeno"), ("error", "Greška"),
     ("unclear", "Nisam razumio šta želiš."),
     ("suggestions_prefix", "Pokušaj npr.:"),
     ("type_read", "ČITANJE"), ("type_write", "PISANJE")]),
   ("en",
    [("understood", "Understood"), ("plan", "Plan"), ("tools", "Tools"),
     ("confirm_question", "Should I proceed?"),
     ("execute_instruction", "Type: EXECUTE {action}"),
     ("success", "Successfully executed"), ("error", "Error"),
     ("unclear", "I didn't understand what you want."),
     ("suggestions_prefix", "Try e.g.:"),
     ("type_read", "READ"), ("type_write", "WRITE")])]

/-- `TRANSLATIONS.get(lang, TRANSLATIONS["de"])`. -/
def trFor (lang : String) : List (String × String) :=
  match dget TRANSLATIONS lang with
  | some t => t
  | Option.none => (dget TRANSLATIONS "de").getD []

/-- `t[key]` on a translation table (every used key is present in every
language's table, so the empty default never fires). -/
def tkey (t : List (String × String)) (key : String) : String :=
  (dget t key).getD ""

/-- Tool description table `TOOL_DESCRIPTIONS`. -/
def TOOL_DESCRIPTIONS : List (String × List (String × String)) :=
  [("jobs.list", [("de", "Alle Jobs auflisten"), ("bs", "Prikaži sve poslove"), ("en", "List all jobs")]),
   ("jobs.get", [("de", "Job-Details anzeigen"), ("bs", "Prikaži detalje posla"), ("en", "Show job details")]),
   ("jobs.create", [("de", "Neuen Job erstellen"), ("bs", "Kreiraj novi posao"), ("en", "Create a new job")]),
   ("jobs.approve", [("de", "Job genehmigen"), ("bs", "Odobri posao"), ("en", "Approve job")]),
   ("jobs.reject", [("de", "Job ablehnen"), ("bs", "Odbij posao"), ("en", "Reject job")]),
   ("jobs.update", [("de", "Job aktualisieren"), ("bs", "Ažuriraj posao"), ("en", "Update job")])]

/-- The READ/WRITE classification table `TOOL_INFO` of `get_tool_info`. -/
def TOOL_INFO : List (String × String) :=
  [("jobs.list", "READ"), ("jobs.get", "READ"), ("jobs.create", "WRITE"),
   ("jobs.approve", "WRITE"), ("jobs.reject", "WRITE"), ("jobs.update", "WRITE")]

/-- Result of `get_tool_info`: a type tag and a localized description. -/
structure ToolInfo where
  type : String
  description : String

/-- `get_tool_info`: type from `TOOL_INFO` (default `UNKNOWN`), description
from `TOOL_DESCRIPTIONS` localized with fallback to the tool name. -/
def get_tool_info (tool lang : String) : ToolInfo :=
  { type := (dget TOOL_INFO tool).getD "UNKNOWN",
    description := (dget ((dget TOOL_DESCRIPTIONS tool).getD []) lang).getD tool }

end Supervisor

/-! ### MCP tool server (`apps/mcp/app/main.py`) -/

namespace Mcp

/-- One record of the tool-server confirm-token store
(`_confirm_tokens[token]`). -/
structure TokenRec where
  tool : String
  params : Params
  summary : String
  created_at : Nat

/-- The tool-server confirm-token store `_confirm_tokens`. -/
abbrev Store := List (String × TokenRec)

/-- `CONFIRM_TOKEN_TTL = 300` seconds. -/
def CONFIRM_TOKEN_TTL : Nat := 300

/-- `_cleanup_expired_tokens`: delete every record whose age at `now`
exceeds the TTL. -/
def cleanup_expired_tokens (now : Nat) (store : Store) : Store :=
  store.filter (fun x => !(now - x.2.created_at > CONFIRM_TOKEN_TTL))

/-- `create_confirm_token`: sweep expired records, then store the binding
under the fresh identifier `token` (produced by `uuid.uuid4()`) with
creation time `now`, and return the identifier. -/
def create_confirm_token (now : Nat) (token tool : String) (params : Params)
    (summary : String) (store : Store) : Store × String :=
  let store := cleanup_expired_tokens now store
  (dset store token { tool := tool, params := params, summary := summary, created_at := now }, token)

/-- `validate_confirm_token` (tool-server side): sweep expired records,
fail when the token is absent or bound to a different tool, otherwise
delete the record (one-time use) and return it. -/
def validate_confirm_token (now : Nat) (token tool : String) (store : Store) :
    Store × Option TokenRec :=
  let store := cleanup_expired_tokens now store
  match dget store token with
  | Option.none => (store, Option.none)
  | some data =>
    if data.tool != tool then (store, Option.none)
    else (ddel store token, some data)

/-- One tool descriptor of the static registry `TOOLS`. -/
structure ToolDef where
  description : String
  type : String
  params : List String

/-- The static tool registry `TOOLS`. -/
def TOOLS : List (String × ToolDef) :=
  [("jobs.list",
    { description := "List all jobs (newest first)", type := "READ", params := [] }),
   ("jobs.get",
    { description := "Get job details by ID", type := "READ", params := ["job_id"] }),
   ("jobs.create",
    { description := "Create a new job", type := "WRITE", params := ["title", "payload"] }),
   ("jobs.set_needs_approval",
    { description := "Set job status to needs_approval (test only)", type := "TEST", params := ["job_id"] }),
   ("jobs.approve",
    { description := "Approve a job (changes status to approved)", type := "WRITE", params := ["job_id"] }),
   ("jobs.reject",
    { description := "Reject a job (changes status to rejected)", type := "WRITE", params := ["job_id"] }),
   ("slack.simulate_mention",
    { description := "Simulate a Slack mention event (local testing)", type := "TEST", params := ["text", "user", "channel"] })]

/-- One outbound HTTP request issued by `api_request` against the
Supervisor API, recorded so that "the downstream call executed" is
observable in theorems. -/
structure ApiCall where
  method : String
  path : String
  body : Option PyVal

/-- The environment's response to an outbound `api_request`: given method,
path and JSON body it yields `(status_code, parsed_json)`. -/
abbrev Oracle := String → String → Option PyVal → Nat × PyVal

/-- `api_request`: perform one downstream HTTP request (response supplied
by the oracle) and record the call. -/
def api_request (oracle : Oracle) (method path : String) (body : Option PyVal) :
    (Nat × PyVal) × List ApiCall :=
  (oracle method path body, [{ method := method, path := path, body := body }])

/-- `execute_tool`: dispatch one named tool to the corresponding downstream
call and return `(status_code, result)` together with the calls performed.
`eventUuid` is the `uuid.uuid4()` and `nowTs` the `str(time.time())` used
by the `slack.simulate_mention` payload. -/
def execute_tool (oracle : Oracle) (eventUuid nowTs : String)
    (tool : String) (params : Params) : (Nat × PyVal) × List ApiCall :=
  if tool = "jobs.list" then
    api_request oracle "GET" "/jobs" Option.none
  else if tool = "jobs.get" then
    let job_id := pgetD params "job_id" PyVal.none
    if !job_id.truthy then ((400, PyVal.dict [("error", PyVal.str "job_id required")]), [])
    else api_request oracle "GET" ("/jobs/" ++ job_id.pyStr) Option.none
  else if tool = "jobs.create" then
    let title := pgetD params "title" (PyVal.str "Untitled Job")
    let payload := pgetD params "payload" (PyVal.dict [])
    api_request oracle "POST" "/jobs" (some (PyVal.dict [("title", title), ("payload", payload)]))
  else if tool = "jobs.set_needs_approval" then
    let job_id := pgetD params "job_id" PyVal.none
    if !job_id.truthy then ((400, PyVal.dict [("error", PyVal.str "job_id required")]), [])
    else api_request oracle "POST" ("/jobs/" ++ job_id.pyStr ++ "/set-needs-approval") Option.none
  else if tool = "jobs.approve" then
    let job_id := pgetD params "job_id" PyVal.none
    if !job_id.truthy then ((400, PyVal.dict [("error", PyVal.str "job_id required")]), [])
    else api_request oracle "POST" ("/jobs/" ++ job_id.pyStr ++ "/approve") Option.none
  else if tool = "jobs.reject" then
    let job_id := pgetD params "job_id" PyVal.none
    if !job_id.truthy then ((400, PyVal.dict [("error", PyVal.str "job_id required")]), [])
    else api_request oracle "POST" ("/jobs/" ++ job_id.pyStr ++ "/reject") Option.none
  else if tool = "slack.simulate_mention" then
    let text := pgetD params "text" (PyVal.str "Test mention")
    let user := pgetD params "user" (PyVal.str "U_TEST")
    let channel := pgetD params "channel" (PyVal.str "C_TEST")
    let event_payload := PyVal.dict
      [("type", PyVal.str "event_callback"),
       ("event_id", PyVal.str ("test-" ++ eventUuid)),
       ("event", PyVal.dict
         [("type", PyVal.str "app_mention"),
          ("user", user), ("channel", channel), ("text", text),
          ("ts", PyVal.str nowTs)])]
    api_request oracle "POST" "/integrations/slack/events" (some event_payload)
  else
    ((404, PyVal.dict [("error", PyVal.str ("Unknown tool: " ++ tool))]), [])

/-- `_generate_plan_summary`: human-readable summary of what the tool will
do. -/
def generate_plan_summary (tool : String) (params : Params) : String :=
  if tool = "jobs.create" then
    "Create job: \x27" ++ (pgetD params "title" (PyVal.str "Untitled")).pyStr ++ "\x27"
  else if tool = "jobs.approve" then
    "Approve job: " ++ (pgetD params "job_id" PyVal.none).pyStr
  else if tool = "jobs.reject" then
    "Reject job: " ++ (pgetD params "job_id" PyVal.none).pyStr
  else if tool = "jobs.set_needs_approval" then
    "Set job to needs_approval: " ++ (pgetD params "job_id" PyVal.none).pyStr
  else if tool = "slack.simulate_mention" then
    "Simulate Slack mention: \x27" ++ (pgetD params "text" (PyVal.str "")).pyStr ++ "\x27"
  else
    "Execute " ++ tool ++ " with params: " ++ paramsRepr params

/-- Request body of `POST /run` (`ToolRequest`). -/
structure ToolRequest where
  tool : String
  params : Params
  confirm : Bool
  confirm_token : Option String

/-- Response body of `POST /run` (`ToolResponse`). -/
structure ToolResponse where
  status : String
  tool : String
  result : Option PyVal
  error : Option String
  require_confirm : Option Bool
  confirm_token : Option String
  plan_summary : Option String

/-- Outcome of one `/run` request: the updated token store, the response
body, and the downstream calls performed while handling the request. -/
structure RunOutcome where
  store : Store
  resp : ToolResponse
  calls : List ApiCall

/-- `result.get("detail") or result.get("error") or str(result)`:
the error text surfaced for a failed downstream call. -/
def errFrom (result : PyVal) : String :=
  let d := pyGet result "detail"
  if d.truthy then d.pyStr
  else
    let e := pyGet result "error"
    if e.truthy then e.pyStr
    else result.pyStr

/-- `run_tool`, the handler of `POST /run`: unknown tools error; READ tools
execute immediately; WRITE/TEST tools either consume a confirm token
(`confirm=true` with a truthy `confirm_token`) and execute with the
parameters stored in the token record, or answer with a plan carrying a
fresh confirm token (`freshToken`, from `uuid.uuid4()`) and perform no
downstream call.  `now` is the current `time.time()`. -/
def run_tool (oracle : Oracle) (now : Nat) (freshToken eventUuid nowTs : String)
    (request : ToolRequest) (store : Store) : RunOutcome :=
  let tool := request.tool
  match dget TOOLS tool with
  | Option.none =>
    { store := store,
      resp := { status := "error", tool := tool, result := Option.none,
                error := some ("Unknown tool: " ++ tool), require_confirm := Option.none,
                confirm_token := Option.none, plan_summary := Option.none },
      calls := [] }
  | some tool_def =>
    if tool_def.type = "READ" then
      let e := execute_tool oracle eventUuid nowTs tool request.params
      if 400 ≤ e.1.1 then
        { store := store,
          resp := { status := "error", tool := tool, result := Option.none,
                    error := some (errFrom e.1.2), require_confirm := Option.none,
                    confirm_token := Option.none, plan_summary := Option.none },
          calls := e.2 }
      else
        { store := store,
          resp := { status := "ok", tool := tool, result := some e.1.2,
                    error := Option.none, require_confirm := Option.none,
                    confirm_token := Option.none, plan_summary := Option.none },
          calls := e.2 }
    else
      if request.confirm && optStrTruthy request.confirm_token then
        let v := validate_confirm_token now (request.confirm_token.getD "") tool store
        match v.2 with
        | Option.none =>
          { store := v.1,
            resp := { status := "error", tool := tool, result := Option.none,
                      error := some "Invalid or expired confirm_token",
                      require_confirm := Option.none, confirm_token := Option.none,
                      plan_summary := Option.none },
            calls := [] }
        | some token_data =>
          let e := execute_tool oracle eventUuid nowTs tool token_data.params
          if 400 ≤ e.1.1 then
            { store := v.1,
              resp := { status := "error", tool := tool, result := Option.none,
                        error := some (errFrom e.1.2), require_confirm := Option.none,
                        confirm_token := Option.none, plan_summary := Option.none },
              calls := e.2 }
          else
            { store := v.1,
              resp := { status := "ok", tool := tool, result := some e.1.2,
                        error := Option.none, require_confirm := Option.none,
                        confirm_token := Option.none, plan_summary := Option.none },
              calls := e.2 }
      else
        let summary := generate_plan_summary tool request.params
        let c := create_confirm_token now freshToken tool request.params summary store
        { store := c.1,
          resp := { status := "plan", tool := tool, result := Option.none,
                    error := Option.none, require_confirm := some true,
                    confirm_token := some c.2, plan_summary := some summary },
          calls := [] }

end Mcp

/-! ### Supervisor: confirm-token store and the plan/execute endpoints -/

namespace Supervisor

/-- One record of the supervisor-side confirm-token store
(`_confirm_tokens[token]`); `created_at` is the ISO-format timestamp
string, which this store never reads back. -/
structure TokenRec where
  tool : String
  params : Params
  created_at : String

/-- The supervisor-side confirm-token store `_confirm_tokens`. -/
abbrev Store := List (String × TokenRec)

/-- `generate_confirm_token`: store the binding under the fresh identifier
`token` (produced by `uuid.uuid4()`) with the ISO timestamp `nowIso`, and
return the identifier. -/
def generate_confirm_token (token tool : String) (params : Params)
    (nowIso : String) (store : Store) : Store × String :=
  (dset store token { tool := tool, params := params, created_at := nowIso }, token)

/-- `validate_confirm_token` (supervisor side): `False` when the token is
absent or bound to a different tool; otherwise delete the record (one-time
use) and return `True`.  No timestamp is ever inspected. -/
def validate_confirm_token (token tool : String) (store : Store) : Store × Bool :=
  match dget store token with
  | Option.none => (store, false)
  | some stored =>
    if stored.tool != tool then (store, false)
    else (ddel store token, true)

/-- Request body of `POST /supervisor/plan` (`PlanRequest`). -/
structure PlanRequest where
  text : String
  language : Option String

/-- Response body of `POST /supervisor/plan` (`PlanResponse`). -/
structure PlanResponse where
  status : String
  language : String
  summary : List String
  plan : List String
  tools : List String
  tool_type : String
  tool_type_localized : String
  confirm_question : String
  confirm_token : Option String
  execute_instruction : Option String
  parsed_tool : Option String
  parsed_params : Option Params
  suggestions : Option (List String)
  error : Option String

/-- `create_plan`, the handler of `POST /supervisor/plan`: parse the text;
with no resolved tool answer `unclear` with suggestions and issue no token;
otherwise issue a confirm token (`freshToken`, from `uuid.uuid4()`, stored
with timestamp `nowIso`) for every tool, READ ones included, and answer
`plan`. -/
def create_plan (freshToken nowIso : String) (request : PlanRequest)
    (store : Store) : Store × PlanResponse :=
  let text := pyStrip request.text
  let lang :=
    match request.language with
    | some l => if l = "" then detect_language text else l
    | Option.none => detect_language text
  let t := trFor lang
  let pr := parse_intent text
  let tool := pr.1
  let params := pr.2.1
  let suggestions := pr.2.2
  if tool = "" then
    let error_msg :=
      tkey t "unclear" ++
        (if suggestions.isEmpty then ""
         else "\n\n" ++ tkey t "suggestions_prefix" ++ "\n" ++
           String.intercalate "\n" (suggestions.map (fun s => "- " ++ s)))
    (store,
     { status := "unclear", language := lang, summary := [tkey t "unclear"],
       plan := [], tools := [], tool_type := "", tool_type_localized := "",
       confirm_question := "", confirm_token := Option.none,
       execute_instruction := Option.none, parsed_tool := Option.none,
       parsed_params := Option.none, suggestions := some suggestions,
       error := some error_msg })
  else
    let tool_info := get_tool_info tool lang
    let tool_type := tool_info.type
    let tool_type_localized := (dget t ("type_" ++ strLower tool_type)).getD tool_type
    let summary :=
      [tkey t "understood" ++ ": " ++ text, "Tool: " ++ tool, "Type: " ++ tool_type_localized] ++
        (if params.isEmpty then [] else ["Parameters: " ++ paramsRepr params])
    let plan :=
      ["1. " ++ tool_info.description] ++
        (if params.isEmpty then [] else ["2. Parameters: " ++ paramsRepr params])
    let g := generate_confirm_token freshToken tool params nowIso store
    let action_name := strUpper (lastDotPart tool)
    (g.1,
     { status := "plan", language := lang, summary := summary, plan := plan,
       tools := [tool], tool_type := tool_type,
       tool_type_localized := tool_type_localized,
       confirm_question := tkey t "confirm_question",
       confirm_token := some g.2,
       execute_instruction := some (formatAction (tkey t "execute_instruction") action_name),
       parsed_tool := some tool, parsed_params := some params,
       suggestions := Option.none, error := Option.none })

/-- Request body of `POST /supervisor/execute` (`ExecuteRequest`). -/
structure ExecuteRequest where
  execute_command : String
  confirm_token : String
  tool : String
  params : Params

/-- Response body of `POST /supervisor/execute` (`ExecuteResponse`). -/
structure ExecuteResponse where
  status : String
  language : String
  message : String
  result : Option PyVal
  error : Option String

/-- `re.match(r"EXECUTE\s+(.+)", cmd.strip(), re.IGNORECASE)` succeeds:
after a case-insensitive `EXECUTE` prefix comes at least one whitespace
character and then, possibly after further whitespace, a character `.` can
match (any character but a newline; the whitespace characters skipped in
between extend the greedy `\s+`). -/
def executeCommandOk (cmd : String) : Bool :=
  let s := (pyStrip cmd).data
  ((s.take 7).map lowerChar = "execute".data) &&
    (match s.drop 7 with
     | [] => false
     | c :: rest => isPySpace c && !(rest.dropWhile (fun x => x = '\n')).isEmpty)

/-- `normalize_result`: list to `\x7b"items": list\x7d`, dict unchanged,
`None` to `\x7b\x7d`, any other scalar `s` to `\x7b"value": s\x7d`. -/
def normalize_result (raw_result : PyVal) : PyVal :=
  match raw_result with
  | PyVal.none => PyVal.dict []
  | PyVal.list l => PyVal.dict [("items", PyVal.list l)]
  | PyVal.dict d => PyVal.dict d
  | v => PyVal.dict [("value", v)]

/-- `call_mcp`: POST the tool call to the MCP server's `/run` endpoint
(`confirm_token` enters the body only when truthy) and return
`(status_code, response_json)`.  Transport is assumed reliable, so the
HTTP status is 200 and the body is the `ToolResponse` produced by
`Mcp.run_tool`. -/
def call_mcp (oracle : Mcp.Oracle) (now : Nat) (freshToken eventUuid nowTs : String)
    (tool : String) (params : Params) (confirm : Bool) (confirm_token : Option String)
    (mcpStore : Mcp.Store) : Mcp.Store × (Nat × Mcp.ToolResponse) × List Mcp.ApiCall :=
  let body_token :=
    match confirm_token with
    | some s => if s != "" then some s else Option.none
    | Option.none => Option.none
  let r := Mcp.run_tool oracle now freshToken eventUuid nowTs
    { tool := tool, params := params, confirm := confirm, confirm_token := body_token }
    mcpStore
  (r.store, (200, r.resp), r.calls)

/-- Outcome of one `/supervisor/execute` request: both token stores, the
response body, and the downstream calls performed by the MCP server while
handling the forwarded call. -/
structure ExecOutcome where
  sup : Store
  mcp : Mcp.Store
  resp : ExecuteResponse
  calls : List Mcp.ApiCall

/-- `execute_plan`, the handler of `POST /supervisor/execute`: require the
`EXECUTE <ACTION>` command shape and a non-empty confirm token, validate
and consume the token against the supplied tool in the supervisor store,
forward the call (with the request's params) to the MCP server with
`confirm=True`, and map the MCP result through `normalize_result`.
The serialized `ToolResponse` always carries its optional fields (as JSON
nulls), so the Python `mcp_result.get("error", "Execution failed")` and
`mcp_result.get("result")` reduce to reading the `error` and `result`
fields. -/
def execute_plan (oracle : Mcp.Oracle) (now : Nat) (freshToken eventUuid nowTs : String)
    (request : ExecuteRequest) (sup : Store) (mcp : Mcp.Store) : ExecOutcome :=
  let lang := detect_language request.execute_command
  let t := trFor lang
  if !executeCommandOk request.execute_command then
    { sup := sup, mcp := mcp,
      resp := { status := "error", language := lang, message := "",
                result := Option.none,
                error := some ("Invalid command. " ++ formatAction (tkey t "execute_instruction") "ACTION") },
      calls := [] }
  else
    let tool := request.tool
    let params := request.params
    if request.confirm_token = "" then
      { sup := sup, mcp := mcp,
        resp := { status := "error", language := lang, message := "",
                  result := Option.none,
                  error := some "confirm_token required (Stufe-5)" },
        calls := [] }
    else
      let v := validate_confirm_token request.confirm_token tool sup
      if !v.2 then
        { sup := v.1, mcp := mcp,
          resp := { status := "error", language := lang, message := "",
                    result := Option.none,
                    error := some "Invalid or expired confirm_token" },
          calls := [] }
      else
        let r := call_mcp oracle now freshToken eventUuid nowTs tool params true
          (some request.confirm_token) mcp
        let status_code := r.2.1.1
        let mcp_result := r.2.1.2
        if 400 ≤ status_code || mcp_result.status == "error" then
          { sup := v.1, mcp := r.1,
            resp := { status := "error", language := lang, message := "",
                      result := Option.none, error := mcp_result.error },
            calls := r.2.2 }
        else
          { sup := v.1, mcp := r.1,
            resp := { status := "ok", language := lang, message := tkey t "success",
                      result := some (normalize_result
                        (match mcp_result.result with
                         | some v => v
                         | Option.none => PyVal.none)),
                      error := Option.none },
            calls := r.2.2 }

end Supervisor

/-! ### Traces of store operations

To state "every subsequent validation with the same token fails" we close
each store under arbitrary sequences of its two operations. -/

/-- One operation on the supervisor-side confirm-token store. -/
inductive SupOp where
  | issue (token tool : String) (params : Params) (nowIso : String)
  | validate (token tool : String)

/-- Effect of one supervisor-store operation on the store. -/
def applySupOp (s : Supervisor.Store) : SupOp → Supervisor.Store
  | .issue k t p c => (Supervisor.generate_confirm_token k t p c s).1
  | .validate k t => (Supervisor.validate_confirm_token k t s).1

/-- Effect of a sequence of supervisor-store operations. -/
def applySupOps (s : Supervisor.Store) (ops : List SupOp) : Supervisor.Store :=
  ops.foldl applySupOp s

/-- The token freshly issued by an operation, if any. -/
def SupOp.issuedToken : SupOp → Option String
  | .issue k _ _ _ => some k
  | .validate _ _ => Option.none

/-- One operation on the tool-server confirm-token store, carrying its
`time.time()` instant. -/
inductive McpOp where
  | issue (now : Nat) (token tool : String) (params : Params) (summary : String)
  | validate (now : Nat) (token tool : String)

/-- Effect of one tool-server-store operation on the store. -/
def applyMcpOp (s : Mcp.Store) : McpOp → Mcp.Store
  | .issue n k t p sm => (Mcp.create_confirm_token n k t p sm s).1
  | .validate n k t => (Mcp.validate_confirm_token n k t s).1

/-- Effect of a sequence of tool-server-store operations. -/
def applyMcpOps (s : Mcp.Store) (ops : List McpOp) : Mcp.Store :=
  ops.foldl applyMcpOp s

/-- The token freshly issued by an operation, if any. -/
def McpOp.issuedToken : McpOp → Option String
  | .issue _ k _ _ _ => some k
  | .validate _ _ _ => Option.none

/-! ### Association-list dictionary lemmas -/

section DictLemmas

variable {α : Type}

theorem dget_nil (k : String) : dget ([] : List (String × α)) k = Option.none := rfl

theorem dget_cons (a : String × α) (d : List (String × α)) (k : String) :
    dget (a :: d) k = if a.1 = k then some a.2 else dget d k := by
  by_cases h : a.1 = k
  · simp [dget, List.find?, h]
  · have hb : (a.1 == k) = false := by simp [h]
    simp [dget, List.find?, hb, h]

theorem dget_append (d₁ d₂ : List (String × α)) (k : String) :
    dget (d₁ ++ d₂) k = match dget d₁ k with | some v => some v | Option.none => dget d₂ k := by
  induction d₁ with
  | nil => simp [dget_nil]
  | cons a d ih =>
    by_cases h : a.1 = k <;> simp [dget_cons, h, ih]

theorem dget_map_set_self (d : List (String × α)) (k : String) (v : α)
    (hfind : (d.find? (fun x => x.1 == k)).isSome) :
    dget (d.map (fun x => if x.1 == k then (k, v) else x)) k = some v := by
  induction d with
  | nil => simp [List.find?] at hfind
  | cons a d ih =>
    by_cases h : a.1 = k
    · simp only [List.map_cons, if_pos (by simp [h] : (a.1 == k) = true)]
      simp [dget_cons]
    · have hb : (a.1 == k) = false := by simp [h]
      simp only [List.map_cons, hb, Bool.false_eq_true, if_false]
      rw [dget_cons, if_neg h]
      apply ih
      simpa [List.find?, hb] using hfind

theorem dget_dset_self (d : List (String × α)) (k : String) (v : α) :
    dget (dset d k v) k = some v := by
  unfold dset
  split
  · next hfind => exact dget_map_set_self d k v hfind
  · next hfind =>
    rw [dget_append]
    have hnone : dget d k = Option.none := by
      unfold dget
      cases hf : d.find? (fun x => x.1 == k) with
      | none => rfl
      | some a => simp [hf] at hfind
    simp [hnone, dget_cons]

theorem dget_map_set_ne (d : List (String × α)) (k k' : String) (v : α) (h : k' ≠ k) :
    dget (d.map (fun x => if x.1 == k then (k, v) else x)) k' = dget d k' := by
  induction d with
  | nil => simp
  | cons a d ih =>
    by_cases ha : a.1 = k
    · have ha' : a.1 ≠ k' := fun e => h (e ▸ ha : k' = k)
      simp only [List.map_cons, if_pos (by simp [ha] : (a.1 == k) = true)]
      rw [dget_cons, if_neg (fun e => h e.symm), dget_cons, if_neg ha', ih]
    · have hb : (a.1 == k) = false := by simp [ha]
      simp only [List.map_cons, hb, Bool.false_eq_true, if_false]
      rw [dget_cons, dget_cons, ih]

theorem dget_dset_ne (d : List (String × α)) (k k' : String) (v : α) (h : k' ≠ k) :
    dget (dset d k v) k' = dget d k' := by
  unfold dset
  split
  · exact dget_map_set_ne d k k' v h
  · rw [dget_append]
    cases hd : dget d k' with
    | some v' => simp
    | none => simp [dget_cons, Ne.symm h, dget_nil]

theorem dget_filter_none (d : List (String × α)) (k : String) (p : String × α → Bool)
    (h : dget d k = Option.none) : dget (d.filter p) k = Option.none := by
  induction d with
  | nil => simp [dget_nil]
  | cons a d ih =>
    rw [dget_cons] at h
    by_cases ha : a.1 = k
    · simp [ha] at h
    · simp only [ha, if_false] at h
      by_cases hp : p a <;> simp [List.filter_cons, hp, dget_cons, ha, ih h]

theorem dget_ddel_self (d : List (String × α)) (k : String) :
    dget (ddel d k) k = Option.none := by
  unfold ddel
  induction d with
  | nil => simp [dget_nil]
  | cons a d ih =>
    by_cases ha : a.1 = k <;> simp [List.filter_cons, ha, dget_cons, ih]

theorem dget_ddel_none (d : List (String × α)) (k k' : String)
    (h : dget d k = Option.none) : dget (ddel d k') k = Option.none :=
  dget_filter_none d k _ h

theorem dset_key_all_eq (d : List (String × α)) (k : String) (v : α) :
    ∀ x ∈ dset d k v, x.1 = k → x.2 = v := by
  unfold dset
  split
  · intro x hx hxk
    obtain ⟨a, _, rfl⟩ := List.mem_map.mp hx
    by_cases ha : a.1 = k
    · rw [if_pos (by simp [ha] : (a.1 == k) = true)]
    · rw [if_neg (by simp [ha] : ¬ (a.1 == k) = true)] at hxk ⊢
      exact absurd hxk ha
  · next hfind =>
    intro x hx hxk
    rcases List.mem_append.mp hx with hx | hx
    · exfalso
      apply hfind
      rw [List.find?_isSome]
      exact ⟨x, hx, by simp [hxk]⟩
    · simp at hx
      rw [hx]

theorem dget_filter_all_eq (d : List (String × α)) (k : String) (v : α)
    (p : String × α → Bool)
    (hall : ∀ x ∈ d, x.1 = k → x.2 = v) (hget : dget d k = some v)
    (hp : p (k, v) = true) : dget (d.filter p) k = some v := by
  induction d with
  | nil => simp [dget_nil] at hget
  | cons a d ih =>
    by_cases ha : a.1 = k
    · have hav : a.2 = v := hall a (List.mem_cons_self a d) ha
      have haeq : a = (k, v) := Prod.ext ha hav
      rw [List.filter_cons, haeq, hp]
      simp [dget_cons]
    · rw [dget_cons, if_neg ha] at hget
      have hall' : ∀ x ∈ d, x.1 = k → x.2 = v :=
        fun x hx => hall x (List.mem_cons_of_mem a hx)
      by_cases hpa : p a
      · rw [List.filter_cons, if_pos hpa, dget_cons, if_neg ha]
        exact ih hall' hget
      · rw [List.filter_cons, if_neg hpa]
        exact ih hall' hget

theorem filter_all_eq (d : List (String × α)) (k : String) (v : α)
    (p : String × α → Bool) (hall : ∀ x ∈ d, x.1 = k → x.2 = v) :
    ∀ x ∈ d.filter p, x.1 = k → x.2 = v :=
  fun x hx => hall x (List.mem_of_mem_filter hx)

end DictLemmas

/-! ### Store-level helper lemmas -/

theorem sup_validate_of_absent (s : Supervisor.Store) (k t : String)
    (h : dget s k = Option.none) :
    Supervisor.validate_confirm_token k t s = (s, false) := by
  unfold Supervisor.validate_confirm_token
  rw [h]

theorem sup_validate_preserves_absent (s : Supervisor.Store) (k0 t0 k : String)
    (h : dget s k = Option.none) :
    dget (Supervisor.validate_confirm_token k0 t0 s).1 k = Option.none := by
  unfold Supervisor.validate_confirm_token
  cases hg : dget s k0 with
  | none => simpa using h
  | some r =>
    by_cases ht : r.tool != t0
    · simpa [ht] using h
    · simpa [ht] using dget_ddel_none s k k0 h

theorem sup_ops_preserve_absent (ops : List SupOp) (s : Supervisor.Store) (k : String)
    (h : dget s k = Option.none) (hops : ∀ op ∈ ops, op.issuedToken ≠ some k) :
    dget (applySupOps s ops) k = Option.none := by
  induction ops generalizing s with
  | nil => simpa [applySupOps] using h
  | cons op ops ih =>
    have h1 : dget (applySupOp s op) k = Option.none := by
      cases op with
      | issue k' t p c =>
        have hne : k ≠ k' := by
          intro e
          exact hops _ (List.mem_cons_self _ _) (by simp [SupOp.issuedToken, e])
        unfold applySupOp Supervisor.generate_confirm_token
        rw [dget_dset_ne s k' k _ hne]
        exact h
      | validate k' t => exact sup_validate_preserves_absent s k' t k h
    have := ih (applySupOp s op) h1 (fun op' h' => hops op' (List.mem_cons_of_mem _ h'))
    simpa [applySupOps] using this

theorem sup_validate_after_issue (store : Supervisor.Store) (k t : String)
    (p : Params) (c : String) :
    Supervisor.validate_confirm_token k t (Supervisor.generate_confirm_token k t p c store).1
      = (ddel (Supervisor.generate_confirm_token k t p c store).1 k, true) := by
  unfold Supervisor.generate_confirm_token Supervisor.validate_confirm_token
  rw [dget_dset_self]
  simp

theorem mcp_cleanup_preserves_absent (n : Nat) (s : Mcp.Store) (k : String)
    (h : dget s k = Option.none) :
    dget (Mcp.cleanup_expired_tokens n s) k = Option.none :=
  dget_filter_none s k _ h

theorem mcp_validate_of_absent (n : Nat) (s : Mcp.Store) (k t : String)
    (h : dget s k = Option.none) :
    Mcp.validate_confirm_token n k t s = (Mcp.cleanup_expired_tokens n s, Option.none) := by
  simp [Mcp.validate_confirm_token, mcp_cleanup_preserves_absent n s k h]

theorem mcp_validate_preserves_absent (n : Nat) (s : Mcp.Store) (k0 t0 k : String)
    (h : dget s k = Option.none) :
    dget (Mcp.validate_confirm_token n k0 t0 s).1 k = Option.none := by
  have hc := mcp_cleanup_preserves_absent n s k h
  simp only [Mcp.validate_confirm_token]
  cases hg : dget (Mcp.cleanup_expired_tokens n s) k0 with
  | none => simpa [hg] using hc
  | some r =>
    by_cases ht : r.tool != t0
    · simpa [hg, ht] using hc
    · simpa [hg, ht] using dget_ddel_none _ k k0 hc

theorem mcp_ops_preserve_absent (ops : List McpOp) (s : Mcp.Store) (k : String)
    (h : dget s k = Option.none) (hops : ∀ op ∈ ops, op.issuedToken ≠ some k) :
    dget (applyMcpOps s ops) k = Option.none := by
  induction ops generalizing s with
  | nil => simpa [applyMcpOps] using h
  | cons op ops ih =>
    have h1 : dget (applyMcpOp s op) k = Option.none := by
      cases op with
      | issue n k' t p sm =>
        have hne : k ≠ k' := by
          intro e
          exact hops _ (List.mem_cons_self _ _) (by simp [McpOp.issuedToken, e])
        unfold applyMcpOp Mcp.create_confirm_token
        rw [dget_dset_ne _ k' k _ hne]
        exact mcp_cleanup_preserves_absent n s k h
      | validate n k' t => exact mcp_validate_preserves_absent n s k' t k h
    have := ih (applyMcpOp s op) h1 (fun op' h' => hops op' (List.mem_cons_of_mem _ h'))
    simpa [applyMcpOps] using this

theorem mcp_keep_pred_of_le (n c : Nat) (h : n - c ≤ Mcp.CONFIRM_TOKEN_TTL)
    (r : Mcp.TokenRec) (hr : r.created_at = c) :
    (!(n - r.created_at > Mcp.CONFIRM_TOKEN_TTL) : Bool) = true := by
  subst hr
  simpa using Nat.not_lt.mpr h

theorem mcp_validate_after_issue (store : Mcp.Store) (k t : String) (p : Params)
    (sm : String) (c n : Nat) (h : n - c ≤ Mcp.CONFIRM_TOKEN_TTL) :
    Mcp.validate_confirm_token n k t (Mcp.create_confirm_token c k t p sm store).1
      = (ddel (Mcp.cleanup_expired_tokens n (Mcp.create_confirm_token c k t p sm store).1) k,
         some { tool := t, params := p, summary := sm, created_at := c }) := by
  have hall : ∀ x ∈ (Mcp.create_confirm_token c k t p sm store).1, x.1 = k →
      x.2 = ({ tool := t, params := p, summary := sm, created_at := c } : Mcp.TokenRec) :=
    dset_key_all_eq _ k _
  have hg : dget (Mcp.create_confirm_token c k t p sm store).1 k
      = some { tool := t, params := p, summary := sm, created_at := c } :=
    dget_dset_self _ k _
  have hget2 : dget (Mcp.cleanup_expired_tokens n (Mcp.create_confirm_token c k t p sm store).1) k
      = some { tool := t, params := p, summary := sm, created_at := c } := by
    unfold Mcp.cleanup_expired_tokens
    exact dget_filter_all_eq _ k _ _ hall hg (by simpa using Nat.not_lt.mpr h)
  simp only [Mcp.validate_confirm_token]
  rw [hget2]
  simp

theorem dget_filter_none_of_all_eq {α : Type} (d : List (String × α)) (k : String)
    (v : α) (p : String × α → Bool)
    (hall : ∀ x ∈ d, x.1 = k → x.2 = v) (hp : p (k, v) = false) :
    dget (d.filter p) k = Option.none := by
  induction d with
  | nil => simp [dget_nil]
  | cons a d ih =>
    have hall' : ∀ x ∈ d, x.1 = k → x.2 = v :=
      fun x hx => hall x (List.mem_cons_of_mem a hx)
    by_cases ha : a.1 = k
    · have haeq : a = (k, v) := Prod.ext ha (hall a (List.mem_cons_self a d) ha)
      rw [List.filter_cons, haeq, hp]
      exact ih hall'
    · by_cases hpa : p a
      · rw [List.filter_cons, if_pos hpa, dget_cons, if_neg ha]
        exact ih hall'
      · rw [List.filter_cons, if_neg hpa]
        exact ih hall'

theorem mcp_validate_expired (store : Mcp.Store) (n : Nat) (k t : String)
    (d : Mcp.TokenRec) (hall : ∀ x ∈ store, x.1 = k → x.2 = d)
    (hexp : n - d.created_at > Mcp.CONFIRM_TOKEN_TTL) :
    (Mcp.validate_confirm_token n k t store).2 = Option.none := by
  have hnone : dget (Mcp.cleanup_expired_tokens n store) k = Option.none := by
    unfold Mcp.cleanup_expired_tokens
    exact dget_filter_none_of_all_eq store k d _ hall (by simpa using hexp)
  simp [Mcp.validate_confirm_token, hnone]

theorem mem_dset {α : Type} (d : List (String × α)) (k : String) (v : α)
    (y : String × α) (hy : y ∈ dset d k v) : y = (k, v) ∨ y ∈ d := by
  unfold dset at hy
  split at hy
  · obtain ⟨a, ha, rfl⟩ := List.mem_map.mp hy
    by_cases h : a.1 = k
    · left
      rw [if_pos (by simp [h] : (a.1 == k) = true)]
    · right
      rw [if_neg (by simp [h] : ¬ (a.1 == k) = true)]
      exact ha
  · rcases List.mem_append.mp hy with h | h
    · right; exact h
    · left; simpa using h

theorem dget_eq_of_all_eq {α : Type} (d : List (String × α)) (k : String) (v r : α)
    (hall : ∀ x ∈ d, x.1 = k → x.2 = v) (h : dget d k = some r) : r = v := by
  unfold dget at h
  cases hf : d.find? (fun x => x.1 == k) with
  | none => rw [hf] at h; cases h
  | some a =>
    rw [hf] at h
    simp only [Option.map_some'] at h
    have hmem := List.mem_of_find?_eq_some hf
    have hk := List.find?_some hf
    rw [← Option.some_inj.mp h]
    exact hall a hmem (by simpa using hk)

/-- A downstream environment answering every request of the tool executor
with HTTP 200 and an empty JSON object (used to instantiate concrete
scenarios). -/
def oracle0 : Mcp.Oracle := fun _ _ _ => (200, PyVal.dict [])

/-! ### Claims -/

/-- C8: result normalization maps every input to a mapping by the
four-case rule — a list `l` to a dict `[("items", l)]`, a dict unchanged,
`None` to the empty dict, any other scalar `s` to `[("value", s)]` — and is
therefore idempotent: `normalize_result (normalize_result x) =
normalize_result x` for every `x`; in particular an already-normalized
mapping comes back unchanged. -/
theorem normalize_result_cases_and_idempotent :
    (∀ l : List PyVal,
      Supervisor.normalize_result (PyVal.list l) = PyVal.dict [("items", PyVal.list l)])
  ∧ (∀ d : List (String × PyVal),
      Supervisor.normalize_result (PyVal.dict d) = PyVal.dict d)
  ∧ Supervisor.normalize_result PyVal.none = PyVal.dict []
  ∧ (∀ s : String,
      Supervisor.normalize_result (PyVal.str s) = PyVal.dict [("value", PyVal.str s)])
  ∧ (∀ n : Int,
      Supervisor.normalize_result (PyVal.int n) = PyVal.dict [("value", PyVal.int n)])
  ∧ (∀ b : Bool,
      Supervisor.normalize_result (PyVal.bool b) = PyVal.dict [("value", PyVal.bool b)])
  ∧ (∀ x : PyVal,
      Supervisor.normalize_result (Supervisor.normalize_result x) = Supervisor.normalize_result x) := by
  refine ⟨fun l => rfl, fun d => rfl, rfl, fun s => rfl, fun n => rfl, fun b => rfl, fun x => ?_⟩
  cases x <;> rfl

/-- C3: for distinct tool names `t1 ≠ t2`, validating a token issued for
`t1` against `t2` always fails, in the supervisor-side store and in the
tool-server-side store alike (at any issue and validation instants). -/
theorem cross_tool_validate_always_fails (t1 t2 : String) (p : Params) (h : t1 ≠ t2) :
    (∀ (store : Supervisor.Store) (k c : String),
      (Supervisor.validate_confirm_token k t2
        (Supervisor.generate_confirm_token k t1 p c store).1).2 = false)
  ∧ (∀ (store : Mcp.Store) (k sm : String) (c n : Nat),
      (Mcp.validate_confirm_token n k t2
        (Mcp.create_confirm_token c k t1 p sm store).1).2 = Option.none) := by
  constructor
  · intro store k c
    unfold Supervisor.generate_confirm_token Supervisor.validate_confirm_token
    rw [dget_dset_self]
    simp [h]
  · intro store k sm c n
    have hall : ∀ x ∈ (Mcp.create_confirm_token c k t1 p sm store).1, x.1 = k →
        x.2 = ({ tool := t1, params := p, summary := sm, created_at := c } : Mcp.TokenRec) :=
      dset_key_all_eq _ k _
    simp only [Mcp.validate_confirm_token]
    cases hg : dget (Mcp.cleanup_expired_tokens n (Mcp.create_confirm_token c k t1 p sm store).1) k with
    | none => simp [hg]
    | some r =>
      have hr : r = { tool := t1, params := p, summary := sm, created_at := c } :=
        dget_eq_of_all_eq _ k _ r
          (fun x hx => hall x (List.mem_of_mem_filter hx)) hg
      simp [hg, hr, h]

/-- C1: in each confirm-token store, after issuing token `k` for `(t, p)`
the first validate-and-consume of `(k, t)` succeeds (for the tool-server
store: provided the elapsed time does not exceed the TTL), and every
subsequent validation of the same token `k` fails, whatever store
operations not re-issuing `k` happen in between. -/
theorem confirm_token_single_use :
    (∀ (store : Supervisor.Store) (k t : String) (p : Params) (c t2 : String)
       (ops : List SupOp),
      (∀ op ∈ ops, op.issuedToken ≠ some k) →
      (Supervisor.validate_confirm_token k t
        (Supervisor.generate_confirm_token k t p c store).1).2 = true ∧
      (Supervisor.validate_confirm_token k t2
        (applySupOps (Supervisor.validate_confirm_token k t
          (Supervisor.generate_confirm_token k t p c store).1).1 ops)).2 = false)
  ∧ (∀ (store : Mcp.Store) (k t : String) (p : Params) (sm t2 : String) (c n n2 : Nat)
       (ops : List McpOp),
      n - c ≤ Mcp.CONFIRM_TOKEN_TTL →
      (∀ op ∈ ops, op.issuedToken ≠ some k) →
      (Mcp.validate_confirm_token n k t
        (Mcp.create_confirm_token c k t p sm store).1).2.isSome = true ∧
      (Mcp.validate_confirm_token n2 k t2
        (applyMcpOps (Mcp.validate_confirm_token n k t
          (Mcp.create_confirm_token c k t p sm store).1).1 ops)).2 = Option.none) := by
  constructor
  · intro store k t p c t2 ops hops
    rw [sup_validate_after_issue store k t p c]
    refine ⟨rfl, ?_⟩
    have habs : dget (ddel (Supervisor.generate_confirm_token k t p c store).1 k) k
        = Option.none := dget_ddel_self _ k
    have habs2 := sup_ops_preserve_absent ops _ k habs hops
    rw [sup_validate_of_absent _ k t2 habs2]
  · intro store k t p sm t2 c n n2 ops httl hops
    rw [mcp_validate_after_issue store k t p sm c n httl]
    refine ⟨rfl, ?_⟩
    have habs : dget (ddel (Mcp.cleanup_expired_tokens n
        (Mcp.create_confirm_token c k t p sm store).1) k) k = Option.none :=
      dget_ddel_self _ k
    have habs2 := mcp_ops_preserve_absent ops _ k habs hops
    rw [mcp_validate_of_absent n2 _ k t2 habs2]

/-- Witness for C1 at concrete inputs: issue and validate `tok` for
`jobs.list` in both stores (issue at time 0, first validation at time 100,
within the TTL), with one interfering operation issuing a different
token. -/
theorem confirm_token_single_use_witness :
    (Supervisor.validate_confirm_token "tok" "jobs.list"
      (Supervisor.generate_confirm_token "tok" "jobs.list" [] "t0" []).1).2 = true ∧
    (Supervisor.validate_confirm_token "tok" "jobs.list"
      (applySupOps (Supervisor.validate_confirm_token "tok" "jobs.list"
        (Supervisor.generate_confirm_token "tok" "jobs.list" [] "t0" []).1).1
        [SupOp.issue "other" "jobs.get" [] "t1"])).2 = false ∧
    (Mcp.validate_confirm_token 100 "tok" "jobs.list"
      (Mcp.create_confirm_token 0 "tok" "jobs.list" [] "sum" []).1).2.isSome = true ∧
    (Mcp.validate_confirm_token 200 "tok" "jobs.list"
      (applyMcpOps (Mcp.validate_confirm_token 100 "tok" "jobs.list"
        (Mcp.create_confirm_token 0 "tok" "jobs.list" [] "sum" []).1).1
        [McpOp.issue 150 "other" "jobs.get" [] "s2"])).2 = Option.none := by
  have hsup := confirm_token_single_use.1 [] "tok" "jobs.list" [] "t0" "jobs.list"
    [SupOp.issue "other" "jobs.get" [] "t1"]
    (by intro op hop; simp at hop; subst hop; simp [SupOp.issuedToken])
  have hmcp := confirm_token_single_use.2 [] "tok" "jobs.list" [] "sum" "jobs.list" 0 100 200
    [McpOp.issue 150 "other" "jobs.get" [] "s2"]
    (by decide)
    (by intro op hop; simp at hop; subst hop; simp [McpOp.issuedToken])
  exact ⟨hsup.1, hsup.2, hmcp.1, hmcp.2⟩

/-- Witness for C3 at concrete inputs: a token issued for `jobs.create`
never validates against `jobs.list` in either store. -/
theorem cross_tool_validate_always_fails_witness :
    ("jobs.create" : String) ≠ "jobs.list" ∧
    (Supervisor.validate_confirm_token "tok" "jobs.list"
      (Supervisor.generate_confirm_token "tok" "jobs.create" [] "t0" []).1).2 = false ∧
    (Mcp.validate_confirm_token 10 "tok" "jobs.list"
      (Mcp.create_confirm_token 0 "tok" "jobs.create" [] "sm" []).1).2 = Option.none := by
  have h := cross_tool_validate_always_fails "jobs.create" "jobs.list" [] (by decide)
  exact ⟨by decide, h.1 [] "tok" "t0", h.2 [] "tok" "sm" 0 10⟩

theorem mem_cleanup_le (n : Nat) (s : Mcp.Store) :
    ∀ x ∈ Mcp.cleanup_expired_tokens n s, n - x.2.created_at ≤ Mcp.CONFIRM_TOKEN_TTL := by
  intro x hx
  have h2 := (List.mem_filter.mp hx).2
  have h3 : ¬ (n - x.2.created_at > Mcp.CONFIRM_TOKEN_TTL) := by simpa using h2
  omega

theorem mcp_validate_of_all_eq (S : Mcp.Store) (k : String) (rec : Mcp.TokenRec)
    (n : Nat) (t2 : String)
    (hall : ∀ x ∈ S, x.1 = k → x.2 = rec)
    (hget : dget S k = some rec)
    (httl : n - rec.created_at ≤ Mcp.CONFIRM_TOKEN_TTL) :
    Mcp.validate_confirm_token n k t2 S =
      if rec.tool != t2 then (Mcp.cleanup_expired_tokens n S, Option.none)
      else (ddel (Mcp.cleanup_expired_tokens n S) k, some rec) := by
  have hget2 : dget (Mcp.cleanup_expired_tokens n S) k = some rec := by
    unfold Mcp.cleanup_expired_tokens
    exact dget_filter_all_eq _ k _ _ hall hget (by simpa using Nat.not_lt.mpr httl)
  simp only [Mcp.validate_confirm_token]
  rw [hget2]

/-- C7: in the tool-server confirm-token store every issue and every
validation first sweeps all records whose age exceeds the 300-second TTL
(so the resulting store holds no expired record), and validating a token
whose record has outlived the TTL always fails; the supervisor-side store
applies no TTL check — a token validates whatever its stored creation
timestamp is. -/
theorem ttl_sweep_and_supervisor_no_ttl :
    (∀ (store : Mcp.Store) (c : Nat) (k t : String) (p : Params) (sm : String),
      ∀ x ∈ (Mcp.create_confirm_token c k t p sm store).1,
        c - x.2.created_at ≤ Mcp.CONFIRM_TOKEN_TTL)
  ∧ (∀ (store : Mcp.Store) (n : Nat) (k t : String),
      ∀ x ∈ (Mcp.validate_confirm_token n k t store).1,
        n - x.2.created_at ≤ Mcp.CONFIRM_TOKEN_TTL)
  ∧ (∀ (store : Mcp.Store) (n : Nat) (k t : String) (d : Mcp.TokenRec),
      (∀ x ∈ store, x.1 = k → x.2 = d) →
      n - d.created_at > Mcp.CONFIRM_TOKEN_TTL →
      (Mcp.validate_confirm_token n k t store).2 = Option.none)
  ∧ (∀ (store : Supervisor.Store) (k t : String) (p : Params) (c1 c2 : String),
      (Supervisor.validate_confirm_token k t
        (Supervisor.generate_confirm_token k t p c1 store).1).2 = true ∧
      (Supervisor.validate_confirm_token k t
        (Supervisor.generate_confirm_token k t p c2 store).1).2 = true) := by
  refine ⟨?_, ?_, ?_, ?_⟩
  · intro store c k t p sm x hx
    rcases mem_dset _ k _ x hx with h | h
    · rw [h]
      simp
    · exact mem_cleanup_le c store x h
  · intro store n k t x hx
    have hsub : ∀ y ∈ Mcp.cleanup_expired_tokens n store,
        n - y.2.created_at ≤ Mcp.CONFIRM_TOKEN_TTL := mem_cleanup_le n store
    simp only [Mcp.validate_confirm_token] at hx
    cases hg : dget (Mcp.cleanup_expired_tokens n store) k with
    | none =>
      rw [hg] at hx
      exact hsub x hx
    | some r =>
      rw [hg] at hx
      by_cases ht : r.tool != t
      · simp only [ht, if_true] at hx
        exact hsub x hx
      · simp only [ht, Bool.false_eq_true, if_false] at hx
        exact hsub x (List.mem_of_mem_filter hx)
  · intro store n k t d hall hexp
    exact mcp_validate_expired store n k t d hall hexp
  · intro store k t p c1 c2
    constructor
    · rw [sup_validate_after_issue store k t p c1]
    · rw [sup_validate_after_issue store k t p c2]

/-- Witness for C7 at concrete inputs: validating an expired record (age
1000, TTL 300) fails in the tool-server store; the supervisor-side store
accepts a token whatever its stored timestamp string. -/
theorem ttl_sweep_and_supervisor_no_ttl_witness :
    (Mcp.validate_confirm_token 1000 "tok" "jobs.list"
      [("tok", { tool := "jobs.list", params := [], summary := "s", created_at := 0 })]).2
      = Option.none ∧
    (Supervisor.validate_confirm_token "tok" "jobs.list"
      (Supervisor.generate_confirm_token "tok" "jobs.list" [] "ancient timestamp" []).1).2
      = true := by
  constructor
  · exact (ttl_sweep_and_supervisor_no_ttl.2.2.1 _ 1000 "tok" "jobs.list"
      { tool := "jobs.list", params := [], summary := "s", created_at := 0 }
      (by
        intro x hx _
        rw [List.mem_singleton.mp hx])
      (by decide))
  · exact (ttl_sweep_and_supervisor_no_ttl.2.2.2 [] "tok" "jobs.list" [] "ancient timestamp" "x").1

/-- C10 counterexample: in the tool-server store a failed
validate-and-consume does not leave the store unchanged: with one expired
record present, validating an absent token fails yet sweeps the record,
leaving a different (empty) store. -/
theorem failed_validate_changes_mcp_store :
    Mcp.validate_confirm_token 1000 "other" "jobs.list"
      [("tok", { tool := "jobs.create", params := [], summary := "s", created_at := 0 })]
      = ([], Option.none) ∧
    ([("tok",
        ({ tool := "jobs.create", params := [], summary := "s", created_at := 0 } : Mcp.TokenRec))] :
      Mcp.Store) ≠ [] := by
  exact ⟨rfl, by simp⟩

/-- C10 amended: a failed validate-and-consume leaves the supervisor-side
store unchanged; in the tool-server store it leaves exactly the result of
the TTL sweep — every unexpired record survives, only expired records may
disappear — and in both stores, after a failed attempt with a wrong tool
name, the same token still validates successfully against its bound tool
(in the tool-server store, provided its TTL has not elapsed). -/
theorem failed_validate_preserves_unexpired :
    (∀ (store : Supervisor.Store) (k t : String),
      (Supervisor.validate_confirm_token k t store).2 = false →
      (Supervisor.validate_confirm_token k t store).1 = store)
  ∧ (∀ (store : Mcp.Store) (n : Nat) (k t : String),
      (Mcp.validate_confirm_token n k t store).2 = Option.none →
      (Mcp.validate_confirm_token n k t store).1 = Mcp.cleanup_expired_tokens n store ∧
      ∀ x ∈ store, n - x.2.created_at ≤ Mcp.CONFIRM_TOKEN_TTL →
        x ∈ (Mcp.validate_confirm_token n k t store).1)
  ∧ (∀ (store : Supervisor.Store) (k t t2 : String) (p : Params) (c : String),
      t2 ≠ t →
      (Supervisor.validate_confirm_token k t2
        (Supervisor.generate_confirm_token k t p c store).1).2 = false ∧
      (Supervisor.validate_confirm_token k t
        (Supervisor.validate_confirm_token k t2
          (Supervisor.generate_confirm_token k t p c store).1).1).2 = true)
  ∧ (∀ (store : Mcp.Store) (k t t2 : String) (p : Params) (sm : String) (c n n2 : Nat),
      t2 ≠ t → n - c ≤ Mcp.CONFIRM_TOKEN_TTL → n2 - c ≤ Mcp.CONFIRM_TOKEN_TTL →
      (Mcp.validate_confirm_token n k t2
        (Mcp.create_confirm_token c k t p sm store).1).2 = Option.none ∧
      (Mcp.validate_confirm_token n2 k t
        (Mcp.validate_confirm_token n k t2
          (Mcp.create_confirm_token c k t p sm store).1).1).2.isSome = true) := by
  refine ⟨?_, ?_, ?_, ?_⟩
  · intro store k t hfail
    unfold Supervisor.validate_confirm_token at hfail ⊢
    cases hg : dget store k with
    | none => rfl
    | some r =>
      by_cases ht : r.tool != t
      · simp [ht]
      · rw [hg] at hfail
        simp [ht] at hfail
  · intro store n k t hfail
    have hstore : (Mcp.validate_confirm_token n k t store).1
        = Mcp.cleanup_expired_tokens n store := by
      simp only [Mcp.validate_confirm_token] at hfail ⊢
      cases hg : dget (Mcp.cleanup_expired_tokens n store) k with
      | none => rfl
      | some r =>
        by_cases ht : r.tool != t
        · simp [ht]
        · rw [hg] at hfail
          simp [ht] at hfail
    refine ⟨hstore, ?_⟩
    intro x hx hle
    rw [hstore]
    unfold Mcp.cleanup_expired_tokens
    rw [List.mem_filter]
    exact ⟨hx, by simpa using Nat.not_lt.mpr hle⟩
  · intro store k t t2 p c hne
    have hfirst : Supervisor.validate_confirm_token k t2
        (Supervisor.generate_confirm_token k t p c store).1
        = ((Supervisor.generate_confirm_token k t p c store).1, false) := by
      unfold Supervisor.generate_confirm_token Supervisor.validate_confirm_token
      rw [dget_dset_self]
      simp [Ne.symm hne]
    rw [hfirst]
    refine ⟨rfl, ?_⟩
    rw [sup_validate_after_issue store k t p c]
  · intro store k t t2 p sm c n n2 hne httl httl2
    set rec : Mcp.TokenRec := { tool := t, params := p, summary := sm, created_at := c } with hrec
    have hall : ∀ x ∈ (Mcp.create_confirm_token c k t p sm store).1, x.1 = k → x.2 = rec :=
      dset_key_all_eq _ k _
    have hget : dget (Mcp.create_confirm_token c k t p sm store).1 k = some rec :=
      dget_dset_self _ k _
    have hfirst := mcp_validate_of_all_eq _ k rec n t2 hall hget (by simpa [hrec] using httl)
    have htne : (rec.tool != t2) = true := by simp [hrec, Ne.symm hne]
    rw [htne, if_pos rfl] at hfirst
    rw [hfirst]
    refine ⟨rfl, ?_⟩
    have hall2 : ∀ x ∈ Mcp.cleanup_expired_tokens n (Mcp.create_confirm_token c k t p sm store).1,
        x.1 = k → x.2 = rec := by
      unfold Mcp.cleanup_expired_tokens
      exact filter_all_eq _ k _ _ hall
    have hget2 : dget (Mcp.cleanup_expired_tokens n
        (Mcp.create_confirm_token c k t p sm store).1) k = some rec := by
      unfold Mcp.cleanup_expired_tokens
      exact dget_filter_all_eq _ k _ _ hall hget (by simpa [hrec] using Nat.not_lt.mpr httl)
    have hsecond := mcp_validate_of_all_eq _ k rec n2 t hall2 hget2 (by simpa [hrec] using httl2)
    have hteq : (rec.tool != t) = false := by simp [hrec]
    rw [hteq] at hsecond
    simp only [Bool.false_eq_true, if_false] at hsecond
    rw [hsecond]
    rfl

/-- Witness for C10 at concrete inputs: a wrong-tool validation of `tok`
(bound to `jobs.create`) fails and leaves both stores able to validate
`tok` against `jobs.create` afterwards. -/
theorem failed_validate_preserves_unexpired_witness :
    (Supervisor.validate_confirm_token "tok" "jobs.list"
      (Supervisor.generate_confirm_token "tok" "jobs.create" [] "t0" []).1).2 = false ∧
    (Supervisor.validate_confirm_token "tok" "jobs.create"
      (Supervisor.validate_confirm_token "tok" "jobs.list"
        (Supervisor.generate_confirm_token "tok" "jobs.create" [] "t0" []).1).1).2 = true ∧
    (Mcp.validate_confirm_token 100 "tok" "jobs.list"
      (Mcp.create_confirm_token 0 "tok" "jobs.create" [] "sm" []).1).2 = Option.none ∧
    (Mcp.validate_confirm_token 200 "tok" "jobs.create"
      (Mcp.validate_confirm_token 100 "tok" "jobs.list"
        (Mcp.create_confirm_token 0 "tok" "jobs.create" [] "sm" []).1).1).2.isSome = true := by
  have hsup := failed_validate_preserves_unexpired.2.2.1 [] "tok" "jobs.create" "jobs.list"
    [] "t0" (by decide)
  have hmcp := failed_validate_preserves_unexpired.2.2.2 [] "tok" "jobs.create" "jobs.list"
    [] "sm" 0 100 200 (by decide) (by decide) (by decide)
  exact ⟨hsup.1, hsup.2, hmcp.1, hmcp.2⟩

/-- C6 counterexample: the executed action does not use the parameters
bound to the token in the supervisor-side store: with token `tok` bound to
`jobs.get` with `job_id = "aaa"`, an execute request supplying
`job_id = "bbb"` succeeds and performs the downstream call `GET
/jobs/bbb` — the bound parameter value `aaa` is ignored. -/
theorem supervisor_execute_ignores_bound_params :
    (Supervisor.execute_plan oracle0 0 "f" "e" "ts"
      { execute_command := "EXECUTE GET", confirm_token := "tok", tool := "jobs.get",
        params := [("job_id", PyVal.str "bbb")] }
      (Supervisor.generate_confirm_token "tok" "jobs.get"
        [("job_id", PyVal.str "aaa")] "t0" []).1
      []).calls
      = [{ method := "GET", path := "/jobs/bbb", body := Option.none }] ∧
    (Supervisor.execute_plan oracle0 0 "f" "e" "ts"
      { execute_command := "EXECUTE GET", confirm_token := "tok", tool := "jobs.get",
        params := [("job_id", PyVal.str "bbb")] }
      (Supervisor.generate_confirm_token "tok" "jobs.get"
        [("job_id", PyVal.str "aaa")] "t0" []).1
      []).resp.status = "ok" ∧
    ("/jobs/bbb" : String) ≠ "/jobs/aaa" := by
  refine ⟨rfl, rfl, by decide⟩

/-- C6 amended: the tool-server store's validate-and-consume removes the
record and returns it, the parameters bound at issue time included (the
confirming execution then uses them); the supervisor-side
validate-and-consume removes the record but returns only a success flag,
and the supervisor's execute step forwards the request's parameters, not
the bound ones, to the tool server. -/
theorem validate_consume_bound_params :
    (∀ (store : Mcp.Store) (k t : String) (p : Params) (sm : String) (c n : Nat),
      n - c ≤ Mcp.CONFIRM_TOKEN_TTL →
      (Mcp.validate_confirm_token n k t (Mcp.create_confirm_token c k t p sm store).1).2
        = some { tool := t, params := p, summary := sm, created_at := c } ∧
      dget (Mcp.validate_confirm_token n k t
        (Mcp.create_confirm_token c k t p sm store).1).1 k = Option.none)
  ∧ (∀ (store : Supervisor.Store) (k t : String) (p : Params) (c : String),
      Supervisor.validate_confirm_token k t (Supervisor.generate_confirm_token k t p c store).1
        = (ddel (Supervisor.generate_confirm_token k t p c store).1 k, true))
  ∧ (∀ (oracle : Mcp.Oracle) (n : Nat) (f e ts : String) (req : Supervisor.ExecuteRequest)
       (sup : Supervisor.Store) (mcp : Mcp.Store),
      Supervisor.executeCommandOk req.execute_command = true →
      req.confirm_token ≠ "" →
      (Supervisor.validate_confirm_token req.confirm_token req.tool sup).2 = true →
      (Supervisor.execute_plan oracle n f e ts req sup mcp).calls
        = (Mcp.run_tool oracle n f e ts
            { tool := req.tool, params := req.params, confirm := true,
              confirm_token := some req.confirm_token } mcp).calls) := by
  refine ⟨?_, ?_, ?_⟩
  · intro store k t p sm c n httl
    rw [mcp_validate_after_issue store k t p sm c n httl]
    exact ⟨rfl, dget_ddel_self _ k⟩
  · intro store k t p c
    exact sup_validate_after_issue store k t p c
  · intro oracle n f e ts req sup mcp hcmd hk hv
    unfold Supervisor.execute_plan
    rw [hcmd]
    simp only [Bool.not_true, Bool.false_eq_true, if_false]
    rw [if_neg hk]
    rw [hv]
    simp only [Bool.not_true, Bool.false_eq_true, if_false]
    unfold Supervisor.call_mcp
    have hbt : (req.confirm_token != "") = true := by simpa using hk
    simp only [hbt, if_true]
    split <;> rfl

/-- Witness for C6 (amended) at concrete inputs. -/
theorem validate_consume_bound_params_witness :
    (Mcp.validate_confirm_token 100 "tok" "jobs.create"
      (Mcp.create_confirm_token 0 "tok" "jobs.create"
        [("title", PyVal.str "Demo")] "sm" []).1).2
      = some { tool := "jobs.create", params := [("title", PyVal.str "Demo")],
               summary := "sm", created_at := 0 } ∧
    (Supervisor.execute_plan oracle0 0 "f" "e" "ts"
      { execute_command := "EXECUTE LIST", confirm_token := "tok", tool := "jobs.list",
        params := [] }
      (Supervisor.generate_confirm_token "tok" "jobs.list" [] "t0" []).1 []).calls
      = (Mcp.run_tool oracle0 0 "f" "e" "ts"
          { tool := "jobs.list", params := [], confirm := true,
            confirm_token := some "tok" } []).calls := by
  constructor
  · exact (validate_consume_bound_params.1 [] "tok" "jobs.create"
      [("title", PyVal.str "Demo")] "sm" 0 100 (by decide)).1
  · exact validate_consume_bound_params.2.2 oracle0 0 "f" "e" "ts"
      { execute_command := "EXECUTE LIST", confirm_token := "tok", tool := "jobs.list",
        params := [] }
      (Supervisor.generate_confirm_token "tok" "jobs.list" [] "t0" []).1 []
      (by rfl) (by decide)
      (by rw [sup_validate_after_issue [] "tok" "jobs.list" [] "t0"])

theorem mcp_validate_tool_eq (n : Nat) (k t : String) (s : Mcp.Store) (d : Mcp.TokenRec)
    (h : (Mcp.validate_confirm_token n k t s).2 = some d) : d.tool = t := by
  simp only [Mcp.validate_confirm_token] at h
  cases hg : dget (Mcp.cleanup_expired_tokens n s) k with
  | none => rw [hg] at h; cases h
  | some r =>
    rw [hg] at h
    by_cases ht : r.tool != t
    · simp [ht] at h
    · simp [ht] at h
      rw [← h]
      simpa using ht

/-- C9: in the tool-server's confirm step (a `confirm=true` request with a
truthy token naming a WRITE- or TEST-typed tool), the request's `params`
field is ignored: two requests identical except for their params produce
identical outcomes — same store, same response, same downstream calls (the
execution, if the token validates, uses the parameters stored with the
token). -/
theorem confirm_step_ignores_request_params (oracle : Mcp.Oracle) (n : Nat)
    (f e ts : String) (t : String) (p1 p2 : Params) (tk : String)
    (mcp : Mcp.Store) (td : Mcp.ToolDef)
    (hlookup : dget Mcp.TOOLS t = some td) (hw : td.type ≠ "READ") (htk : tk ≠ "") :
    Mcp.run_tool oracle n f e ts
        { tool := t, params := p1, confirm := true, confirm_token := some tk } mcp
      = Mcp.run_tool oracle n f e ts
        { tool := t, params := p2, confirm := true, confirm_token := some tk } mcp := by
  have htk2 : optStrTruthy (some tk) = true := by simp [optStrTruthy, htk]
  simp only [Mcp.run_tool, hlookup, hw, htk2, Bool.true_and, if_true, if_false]

/-- Witness for C9 at concrete inputs: two confirm requests for
`jobs.create` with the same valid token but different params fields behave
identically. -/
theorem confirm_step_ignores_request_params_witness :
    Mcp.run_tool oracle0 10 "f" "e" "ts"
        { tool := "jobs.create", params := [("title", PyVal.str "X")], confirm := true,
          confirm_token := some "tok" }
        (Mcp.create_confirm_token 0 "tok" "jobs.create" [("title", PyVal.str "Real")] "sm" []).1
      = Mcp.run_tool oracle0 10 "f" "e" "ts"
        { tool := "jobs.create", params := [("title", PyVal.str "Y")], confirm := true,
          confirm_token := some "tok" }
        (Mcp.create_confirm_token 0 "tok" "jobs.create" [("title", PyVal.str "Real")] "sm" []).1 := by
  exact confirm_step_ignores_request_params oracle0 10 "f" "e" "ts" "jobs.create"
    [("title", PyVal.str "X")] [("title", PyVal.str "Y")] "tok" _
    { description := "Create a new job", type := "WRITE", params := ["title", "payload"] }
    (by rfl) (by decide) (by decide)

/-- C5: in the tool-server's run endpoint, a request naming a READ-typed
tool executes the downstream call immediately with no token involved (the
token store is untouched and no token is returned); a request naming a
WRITE- or TEST-typed tool without `(confirm=true, confirm_token)` returns
status `plan` with a fresh confirm token and performs no downstream call;
with `(confirm=true, confirm_token)` the downstream call executes only if
the token validates-and-consumes against that exact tool name, and then
with the parameters bound to the token. -/
theorem run_endpoint_confirm_gate (oracle : Mcp.Oracle) (n : Nat) (f e ts : String)
    (req : Mcp.ToolRequest) (mcp : Mcp.Store) (td : Mcp.ToolDef)
    (hlookup : dget Mcp.TOOLS req.tool = some td) :
    (td.type = "READ" →
      (Mcp.run_tool oracle n f e ts req mcp).calls
          = (Mcp.execute_tool oracle e ts req.tool req.params).2 ∧
      (Mcp.run_tool oracle n f e ts req mcp).store = mcp ∧
      (Mcp.run_tool oracle n f e ts req mcp).resp.confirm_token = Option.none)
  ∧ (td.type ≠ "READ" →
      ((req.confirm && optStrTruthy req.confirm_token) = false →
        (Mcp.run_tool oracle n f e ts req mcp).resp.status = "plan" ∧
        (Mcp.run_tool oracle n f e ts req mcp).resp.confirm_token = some f ∧
        (Mcp.run_tool oracle n f e ts req mcp).calls = []) ∧
      ((req.confirm && optStrTruthy req.confirm_token) = true →
        ((Mcp.validate_confirm_token n (req.confirm_token.getD "") req.tool mcp).2
            = Option.none →
          (Mcp.run_tool oracle n f e ts req mcp).calls = [] ∧
          (Mcp.run_tool oracle n f e ts req mcp).resp.status = "error") ∧
        (∀ data,
          (Mcp.validate_confirm_token n (req.confirm_token.getD "") req.tool mcp).2
              = some data →
          data.tool = req.tool ∧
          (Mcp.run_tool oracle n f e ts req mcp).calls
              = (Mcp.execute_tool oracle e ts req.tool data.params).2 ∧
          (Mcp.run_tool oracle n f e ts req mcp).store
              = (Mcp.validate_confirm_token n (req.confirm_token.getD "") req.tool mcp).1))) := by
  constructor
  · intro hread
    simp only [Mcp.run_tool, hlookup, hread, if_true]
    by_cases hs : 400 ≤ (Mcp.execute_tool oracle e ts req.tool req.params).1.1
    · simp [hs]
    · simp [hs]
  · intro hw
    constructor
    · intro hcond
      simp only [Mcp.run_tool, hlookup, hw, if_false, hcond, Bool.false_eq_true]
      refine ⟨?_, ?_, ?_⟩ <;> trivial
    · intro hcond
      constructor
      · intro hfail
        simp only [Mcp.run_tool, hlookup, hw, if_false, hcond, if_true, hfail]
        refine ⟨?_, ?_⟩ <;> trivial
      · intro data hok
        refine ⟨mcp_validate_tool_eq n _ req.tool mcp data hok, ?_⟩
        simp only [Mcp.run_tool, hlookup, hw, if_false, hcond, if_true, hok]
        by_cases hs : 400 ≤ (Mcp.execute_tool oracle e ts req.tool data.params).1.1
        · simp [hs]
        · simp [hs]

/-- Witness for C5 at concrete inputs: a READ request executes downstream
immediately; an unconfirmed WRITE request gets a plan and a token and
triggers no downstream call; a confirmed WRITE request with an invalid
token triggers no downstream call. -/
theorem run_endpoint_confirm_gate_witness :
    (Mcp.run_tool oracle0 0 "f" "e" "ts"
      { tool := "jobs.list", params := [], confirm := false, confirm_token := Option.none }
      []).calls
      = [{ method := "GET", path := "/jobs", body := Option.none }] ∧
    (Mcp.run_tool oracle0 0 "f" "e" "ts"
      { tool := "jobs.create", params := [], confirm := false, confirm_token := Option.none }
      []).resp.status = "plan" ∧
    (Mcp.run_tool oracle0 0 "f" "e" "ts"
      { tool := "jobs.create", params := [], confirm := false, confirm_token := Option.none }
      []).resp.confirm_token = some "f" ∧
    (Mcp.run_tool oracle0 0 "f" "e" "ts"
      { tool := "jobs.create", params := [], confirm := false, confirm_token := Option.none }
      []).calls = [] ∧
    (Mcp.run_tool oracle0 0 "f" "e" "ts"
      { tool := "jobs.create", params := [], confirm := true, confirm_token := some "bogus" }
      []).calls = [] := by
  refine ⟨?_, ?_, ?_, ?_, ?_⟩
  · exact ((run_endpoint_confirm_gate oracle0 0 "f" "e" "ts"
      { tool := "jobs.list", params := [], confirm := false, confirm_token := Option.none }
      [] { description := "List all jobs (newest first)", type := "READ", params := [] }
      (by rfl)).1 (by rfl)).1
  · exact ((run_endpoint_confirm_gate oracle0 0 "f" "e" "ts"
      { tool := "jobs.create", params := [], confirm := false, confirm_token := Option.none }
      [] { description := "Create a new job", type := "WRITE", params := ["title", "payload"] }
      (by rfl)).2 (by decide)).1 (by rfl) |>.1
  · exact ((run_endpoint_confirm_gate oracle0 0 "f" "e" "ts"
      { tool := "jobs.create", params := [], confirm := false, confirm_token := Option.none }
      [] { description := "Create a new job", type := "WRITE", params := ["title", "payload"] }
      (by rfl)).2 (by decide)).1 (by rfl) |>.2.1
  · exact ((run_endpoint_confirm_gate oracle0 0 "f" "e" "ts"
      { tool := "jobs.create", params := [], confirm := false, confirm_token := Option.none }
      [] { description := "Create a new job", type := "WRITE", params := ["title", "payload"] }
      (by rfl)).2 (by decide)).1 (by rfl) |>.2.2
  · exact (((run_endpoint_confirm_gate oracle0 0 "f" "e" "ts"
      { tool := "jobs.create", params := [], confirm := true, confirm_token := some "bogus" }
      [] { description := "Create a new job", type := "WRITE", params := ["title", "payload"] }
      (by rfl)).2 (by decide)).2 (by rfl)).1 (by rfl) |>.1

theorem sugFor_ne_nil (lang : String) : Supervisor.sugFor lang ≠ [] := by
  unfold Supervisor.sugFor
  cases h : dget Supervisor.SUGGESTIONS lang with
  | none => simp [Supervisor.SUGGESTIONS, dget, List.find?]
  | some s =>
    unfold dget at h
    cases hf : (Supervisor.SUGGESTIONS).find? (fun x => x.1 == lang) with
    | none => rw [hf] at h; cases h
    | some a =>
      rw [hf] at h
      simp only [Option.map_some'] at h
      have hmem := List.mem_of_find?_eq_some hf
      simp only [Supervisor.SUGGESTIONS, List.mem_cons, List.mem_singleton] at hmem
      rcases hmem with ha | ha | ha | hnil
      · subst ha; rw [← h]; simp
      · subst ha; rw [← h]; simp
      · subst ha; rw [← h]; simp
      · simp at hnil

theorem create_plan_unresolved (k nowIso : String) (req : Supervisor.PlanRequest)
    (store : Supervisor.Store)
    (hparse : (Supervisor.parse_intent (pyStrip req.text)).1 = "") :
    (Supervisor.create_plan k nowIso req store).2.status = "unclear" ∧
    (Supervisor.create_plan k nowIso req store).2.suggestions
      = some (Supervisor.parse_intent (pyStrip req.text)).2.2 ∧
    (Supervisor.create_plan k nowIso req store).2.confirm_token = Option.none ∧
    (Supervisor.create_plan k nowIso req store).1 = store := by
  unfold Supervisor.create_plan
  simp only [hparse, if_true]
  refine ⟨?_, ?_, ?_, ?_⟩ <;> trivial

theorem create_plan_resolved (k nowIso : String) (req : Supervisor.PlanRequest)
    (store : Supervisor.Store) (t : String) (p : Params)
    (hparse : Supervisor.parse_intent (pyStrip req.text) = (t, p, []))
    (ht : t ≠ "") :
    (Supervisor.create_plan k nowIso req store).2.status = "plan" ∧
    (Supervisor.create_plan k nowIso req store).2.confirm_token = some k ∧
    (Supervisor.create_plan k nowIso req store).2.parsed_tool = some t ∧
    (Supervisor.create_plan k nowIso req store).2.parsed_params = some p ∧
    (Supervisor.create_plan k nowIso req store).1
      = (Supervisor.generate_confirm_token k t p nowIso store).1 := by
  unfold Supervisor.create_plan
  simp only [hparse, ht, if_false]
  refine ⟨?_, ?_, ?_, ?_, ?_⟩ <;> trivial

theorem execute_plan_invalid_token (oracle : Mcp.Oracle) (n : Nat) (f e ts : String)
    (req : Supervisor.ExecuteRequest) (sup : Supervisor.Store) (mcp : Mcp.Store)
    (hcmd : Supervisor.executeCommandOk req.execute_command = true)
    (hk : req.confirm_token ≠ "")
    (hv : (Supervisor.validate_confirm_token req.confirm_token req.tool sup).2 = false) :
    (Supervisor.execute_plan oracle n f e ts req sup mcp).resp.status = "error" ∧
    (Supervisor.execute_plan oracle n f e ts req sup mcp).resp.error
      = some "Invalid or expired confirm_token" ∧
    (Supervisor.execute_plan oracle n f e ts req sup mcp).calls = [] := by
  unfold Supervisor.execute_plan
  simp only [hcmd, Bool.not_true, Bool.false_eq_true, if_false, if_neg hk, hv,
    Bool.not_false, if_true]
  refine ⟨?_, ?_, ?_⟩ <;> trivial

theorem execute_plan_valid_read (oracle : Mcp.Oracle) (n : Nat) (f e ts : String)
    (req : Supervisor.ExecuteRequest) (sup : Supervisor.Store) (mcp : Mcp.Store)
    (td : Mcp.ToolDef)
    (hcmd : Supervisor.executeCommandOk req.execute_command = true)
    (hk : req.confirm_token ≠ "")
    (hv : (Supervisor.validate_confirm_token req.confirm_token req.tool sup).2 = true)
    (hlookup : dget Mcp.TOOLS req.tool = some td)
    (hread : td.type = "READ")
    (hdown : (Mcp.execute_tool oracle e ts req.tool req.params).1.1 < 400) :
    (Supervisor.execute_plan oracle n f e ts req sup mcp).resp.status = "ok" ∧
    (Supervisor.execute_plan oracle n f e ts req sup mcp).sup
      = (Supervisor.validate_confirm_token req.confirm_token req.tool sup).1 ∧
    (Supervisor.execute_plan oracle n f e ts req sup mcp).mcp = mcp := by
  unfold Supervisor.execute_plan Supervisor.call_mcp
  have hbt : (req.confirm_token != "") = true := by simpa using hk
  have hnd : ¬ (400 ≤ (Mcp.execute_tool oracle e ts req.tool req.params).1.1) :=
    Nat.not_le.mpr hdown
  simp only [hcmd, Bool.not_true, Bool.false_eq_true, if_false, if_neg hk, hv,
    Bool.not_false, if_true, hbt, Mcp.run_tool, hlookup, hread, hnd]
  refine ⟨?_, ?_, ?_⟩ <;> trivial

theorem parse_intent_suggestions (text : String)
    (hp : (Supervisor.parse_intent text).1 = "") :
    (Supervisor.parse_intent text).2.2
      = Supervisor.sugFor (Supervisor.detect_language text) := by
  simp only [Supervisor.parse_intent] at hp ⊢
  cases hf : Supervisor.TOOL_PATTERNS.find?
      (fun tp => tp.2.any (fun p => strContains (Supervisor.normalize_text text) p)) with
  | none => rfl
  | some tp =>
    rw [hf] at hp
    have hmem := List.mem_of_find?_eq_some hf
    have hne : tp.1 ≠ "" := by
      simp only [Supervisor.TOOL_PATTERNS, List.mem_cons, List.mem_singleton] at hmem
      rcases hmem with h | h | h | h | h | h | hnil
      · rw [h]; decide
      · rw [h]; decide
      · rw [h]; decide
      · rw [h]; decide
      · rw [h]; decide
      · rw [h]; decide
      · simp at hnil
    exact absurd hp hne

theorem parse_intent_resolved_shape (text : String)
    (hp : (Supervisor.parse_intent text).1 ≠ "") :
    Supervisor.parse_intent text
      = ((Supervisor.parse_intent text).1, (Supervisor.parse_intent text).2.1, []) := by
  simp only [Supervisor.parse_intent] at hp ⊢
  cases hf : Supervisor.TOOL_PATTERNS.find?
      (fun tp => tp.2.any (fun p => strContains (Supervisor.normalize_text text) p)) with
  | none =>
    rw [hf] at hp
    exact absurd rfl hp
  | some tp => rfl

/-- C4: for every plan request, when intent parsing resolves no tool the
plan step answers `unclear` with a non-empty suggestion list and leaves the
token store untouched (no token issued); when a tool is resolved the plan
step answers `plan` and always issues a confirm token bound to
`(tool, params)`, regardless of the tool's READ/WRITE classification — in
particular, the READ-typed `jobs.list` resolved from the text
`"List jobs"` (detected language `en`) gets a token. -/
theorem plan_step_token_policy (k nowIso : String) (req : Supervisor.PlanRequest)
    (store : Supervisor.Store) :
    ((Supervisor.parse_intent (pyStrip req.text)).1 = "" →
      (Supervisor.create_plan k nowIso req store).2.status = "unclear" ∧
      (Supervisor.create_plan k nowIso req store).2.suggestions
        = some (Supervisor.parse_intent (pyStrip req.text)).2.2 ∧
      (Supervisor.parse_intent (pyStrip req.text)).2.2 ≠ [] ∧
      (Supervisor.create_plan k nowIso req store).2.confirm_token = Option.none ∧
      (Supervisor.create_plan k nowIso req store).1 = store)
  ∧ ((Supervisor.parse_intent (pyStrip req.text)).1 ≠ "" →
      (Supervisor.create_plan k nowIso req store).2.status = "plan" ∧
      (Supervisor.create_plan k nowIso req store).2.confirm_token = some k ∧
      (Supervisor.create_plan k nowIso req store).1
        = (Supervisor.generate_confirm_token k
            (Supervisor.parse_intent (pyStrip req.text)).1
            (Supervisor.parse_intent (pyStrip req.text)).2.1 nowIso store).1)
  ∧ ((Supervisor.create_plan k nowIso
        { text := "List jobs", language := Option.none } store).2.parsed_tool
        = some "jobs.list" ∧
      (Supervisor.create_plan k nowIso
        { text := "List jobs", language := Option.none } store).2.tool_type = "READ" ∧
      (Supervisor.create_plan k nowIso
        { text := "List jobs", language := Option.none } store).2.language = "en" ∧
      (Supervisor.create_plan k nowIso
        { text := "List jobs", language := Option.none } store).2.confirm_token = some k) := by
  refine ⟨?_, ?_, ?_⟩
  · intro hp
    have h := create_plan_unresolved k nowIso req store hp
    refine ⟨h.1, h.2.1, ?_, h.2.2.1, h.2.2.2⟩
    rw [parse_intent_suggestions _ hp]
    exact sugFor_ne_nil _
  · intro hp
    have hshape := parse_intent_resolved_shape (pyStrip req.text) hp
    have h := create_plan_resolved k nowIso req store _ _ hshape hp
    exact ⟨h.1, h.2.1, h.2.2.2.2⟩
  · exact ⟨rfl, rfl, rfl, rfl⟩

/-- Witness for C4 at concrete inputs: the non-matching text `"asdf qqq"`
yields `unclear` and no store change; `"List jobs"` yields `plan` with the
token. -/
theorem plan_step_token_policy_witness :
    (Supervisor.create_plan "tok" "t0"
      { text := "asdf qqq", language := Option.none } []).2.status = "unclear" ∧
    (Supervisor.create_plan "tok" "t0"
      { text := "asdf qqq", language := Option.none } []).1 = [] ∧
    (Supervisor.create_plan "tok" "t0"
      { text := "List jobs", language := Option.none } []).2.status = "plan" ∧
    (Supervisor.create_plan "tok" "t0"
      { text := "List jobs", language := Option.none } []).2.confirm_token = some "tok" := by
  have h1 := (plan_step_token_policy "tok" "t0"
    { text := "asdf qqq", language := Option.none } []).1 (by rfl)
  have h2 := (plan_step_token_policy "tok" "t0"
    { text := "List jobs", language := Option.none } []).2.1 (by decide)
  exact ⟨h1.1, h1.2.2.2.2, h2.1, h2.2.1⟩

/-- C2 counterexample: for the WRITE-typed, plan-resolvable tool
`jobs.create`, the first well-formed execute request carrying the token
issued by the plan step does not return status ok: the supervisor consumes
its own token and forwards the call with `confirm=true`, but the tool
server validates the token against its own store, which never held it, and
answers a token error. -/
theorem execute_write_tool_first_call_fails :
    (Supervisor.create_plan "tok1" "t0"
      { text := "Create job: Demo", language := Option.none } []).2.parsed_tool
      = some "jobs.create" ∧
    (Supervisor.create_plan "tok1" "t0"
      { text := "Create job: Demo", language := Option.none } []).2.confirm_token
      = some "tok1" ∧
    (Supervisor.execute_plan oracle0 0 "f" "e" "ts"
      { execute_command := "EXECUTE CREATE", confirm_token := "tok1", tool := "jobs.create",
        params := [("title", PyVal.str "Demo")] }
      (Supervisor.create_plan "tok1" "t0"
        { text := "Create job: Demo", language := Option.none } []).1
      []).resp.status = "error" ∧
    (Supervisor.execute_plan oracle0 0 "f" "e" "ts"
      { execute_command := "EXECUTE CREATE", confirm_token := "tok1", tool := "jobs.create",
        params := [("title", PyVal.str "Demo")] }
      (Supervisor.create_plan "tok1" "t0"
        { text := "Create job: Demo", language := Option.none } []).1
      []).resp.error = some "Invalid or expired confirm_token" := by
  exact ⟨rfl, rfl, rfl, rfl⟩

/-- C2 amended (the claim holds for the READ-typed tools of the
tool-server registry, given a successful downstream call): after a plan
request resolving tool `t` issues confirm token `k`, a well-formed execute
request carrying `k` and `t` returns status ok the first time, and the
identical repeated execute request answers the token error `Invalid or
expired confirm_token`; for WRITE/TEST-typed tools even the first execute
request fails with that token error, because the tool server only accepts
tokens from its own store (see the counterexample). -/
theorem execute_read_tool_once_then_token_error
    (oracle : Mcp.Oracle) (text k nowIso cmd t : String) (p creq : Params)
    (n n2 : Nat) (f f2 e e2 ts ts2 : String)
    (sup0 : Supervisor.Store) (mcp0 : Mcp.Store) (td : Mcp.ToolDef)
    (hparse : Supervisor.parse_intent (pyStrip text) = (t, p, []))
    (ht : t ≠ "")
    (hlookup : dget Mcp.TOOLS t = some td)
    (hread : td.type = "READ")
    (hcmd : Supervisor.executeCommandOk cmd = true)
    (hk : k ≠ "")
    (hdown : (Mcp.execute_tool oracle e ts t creq).1.1 < 400) :
    (Supervisor.create_plan k nowIso
      { text := text, language := Option.none } sup0).2.confirm_token = some k ∧
    (Supervisor.execute_plan oracle n f e ts
      { execute_command := cmd, confirm_token := k, tool := t, params := creq }
      (Supervisor.create_plan k nowIso
        { text := text, language := Option.none } sup0).1 mcp0).resp.status = "ok" ∧
    (Supervisor.execute_plan oracle n2 f2 e2 ts2
      { execute_command := cmd, confirm_token := k, tool := t, params := creq }
      (Supervisor.execute_plan oracle n f e ts
        { execute_command := cmd, confirm_token := k, tool := t, params := creq }
        (Supervisor.create_plan k nowIso
          { text := text, language := Option.none } sup0).1 mcp0).sup
      (Supervisor.execute_plan oracle n f e ts
        { execute_command := cmd, confirm_token := k, tool := t, params := creq }
        (Supervisor.create_plan k nowIso
          { text := text, language := Option.none } sup0).1 mcp0).mcp).resp.status = "error" ∧
    (Supervisor.execute_plan oracle n2 f2 e2 ts2
      { execute_command := cmd, confirm_token := k, tool := t, params := creq }
      (Supervisor.execute_plan oracle n f e ts
        { execute_command := cmd, confirm_token := k, tool := t, params := creq }
        (Supervisor.create_plan k nowIso
          { text := text, language := Option.none } sup0).1 mcp0).sup
      (Supervisor.execute_plan oracle n f e ts
        { execute_command := cmd, confirm_token := k, tool := t, params := creq }
        (Supervisor.create_plan k nowIso
          { text := text, language := Option.none } sup0).1 mcp0).mcp).resp.error
      = some "Invalid or expired confirm_token" := by
  have hplan := create_plan_resolved k nowIso
    { text := text, language := Option.none } sup0 t p hparse ht
  have hv1eq : Supervisor.validate_confirm_token k t
      (Supervisor.create_plan k nowIso { text := text, language := Option.none } sup0).1
      = (ddel (Supervisor.generate_confirm_token k t p nowIso sup0).1 k, true) := by
    rw [hplan.2.2.2.2]
    exact sup_validate_after_issue sup0 k t p nowIso
  have hfirst := execute_plan_valid_read oracle n f e ts
    { execute_command := cmd, confirm_token := k, tool := t, params := creq }
    (Supervisor.create_plan k nowIso { text := text, language := Option.none } sup0).1 mcp0 td
    hcmd hk
    (by
      show (Supervisor.validate_confirm_token k t _).2 = true
      rw [hv1eq])
    hlookup hread hdown
  have hv2 : (Supervisor.validate_confirm_token k t
      (Supervisor.execute_plan oracle n f e ts
        { execute_command := cmd, confirm_token := k, tool := t, params := creq }
        (Supervisor.create_plan k nowIso
          { text := text, language := Option.none } sup0).1 mcp0).sup).2 = false := by
    rw [hfirst.2.1, hv1eq]
    show (Supervisor.validate_confirm_token k t
      (ddel (Supervisor.generate_confirm_token k t p nowIso sup0).1 k)).2 = false
    rw [sup_validate_of_absent _ k t (dget_ddel_self _ k)]
  have hsecond := execute_plan_invalid_token oracle n2 f2 e2 ts2
    { execute_command := cmd, confirm_token := k, tool := t, params := creq }
    (Supervisor.execute_plan oracle n f e ts
      { execute_command := cmd, confirm_token := k, tool := t, params := creq }
      (Supervisor.create_plan k nowIso
        { text := text, language := Option.none } sup0).1 mcp0).sup
    (Supervisor.execute_plan oracle n f e ts
      { execute_command := cmd, confirm_token := k, tool := t, params := creq }
      (Supervisor.create_plan k nowIso
        { text := text, language := Option.none } sup0).1 mcp0).mcp
    hcmd hk hv2
  exact ⟨hplan.2.1, hfirst.1, hsecond.1, hsecond.2.1⟩

/-- Witness for C2 (amended) at concrete inputs: plan `"List jobs"`, then
execute `jobs.list` with the issued token succeeds, and the identical
repeated call fails with the token error. -/
theorem execute_read_tool_once_then_token_error_witness :
    (Supervisor.create_plan "tok" "t0"
      { text := "List jobs", language := Option.none } []).2.confirm_token = some "tok" ∧
    (Supervisor.execute_plan oracle0 0 "f" "e" "ts"
      { execute_command := "EXECUTE LIST", confirm_token := "tok", tool := "jobs.list",
        params := [] }
      (Supervisor.create_plan "tok" "t0"
        { text := "List jobs", language := Option.none } []).1 []).resp.status = "ok" ∧
    (Supervisor.execute_plan oracle0 1 "f2" "e2" "ts2"
      { execute_command := "EXECUTE LIST", confirm_token := "tok", tool := "jobs.list",
        params := [] }
      (Supervisor.execute_plan oracle0 0 "f" "e" "ts"
        { execute_command := "EXECUTE LIST", confirm_token := "tok", tool := "jobs.list",
          params := [] }
        (Supervisor.create_plan "tok" "t0"
          { text := "List jobs", language := Option.none } []).1 []).sup
      (Supervisor.execute_plan oracle0 0 "f" "e" "ts"
        { execute_command := "EXECUTE LIST", confirm_token := "tok", tool := "jobs.list",
          params := [] }
        (Supervisor.create_plan "tok" "t0"
          { text := "List jobs", language := Option.none } []).1 []).mcp).resp.error
      = some "Invalid or expired confirm_token" := by
  have h := execute_read_tool_once_then_token_error oracle0 "List jobs" "tok" "t0"
    "EXECUTE LIST" "jobs.list" [] [] 0 1 "f" "f2" "e" "e2" "ts" "ts2" [] []
    { description := "List all jobs (newest first)", type := "READ", params := [] }
    (by rfl) (by decide) (by rfl) (by rfl) (by rfl) (by decide) (by decide)
  exact ⟨h.1, h.2.1, h.2.2.2⟩
